import Mathlib

/-!
Verification development for the `datatypes` translation layer of a
DataFusion-to-PostgreSQL gateway (`src/datafusion-postgres/src/datatypes.rs`).

The Rust source is shallowly embedded: Arrow logical types, pgwire wire
types, the type map `into_pg_type`, the cell encoder `encode_value`, the
batch-to-row adapter `encode_dataframe`, and the parameter decoder
`deserialize_parameters` become executable Lean definitions.  Machine
integers are modelled as `Int`/`Nat` with explicit two's-complement casts
where the source casts; fallible paths return `Except`/`Outcome`; Rust
`unwrap` panics become an explicit `panic` outcome.
-/

namespace DfPg

/-- Arrow `TimeUnit`. -/
inductive ArrowTimeUnit where
  | Second
  | Millisecond
  | Microsecond
  | Nanosecond
  deriving DecidableEq, Repr

/-- Arrow `IntervalUnit`. -/
inductive ArrowIntervalUnit where
  | YearMonth
  | DayTime
  | MonthDayNano
  deriving DecidableEq, Repr

/-- Arrow logical `DataType`, restricted to the variants the source matches
on plus two representatives (`Decimal128`, `Duration`) of the catch-all
`_` arm. `FixedSizeBinary`/`FixedSizeList` carry their length, `Timestamp`
its unit and optional timezone name, `List`-family types their element. -/
inductive DataType where
  | Null
  | Boolean
  | Int8 | Int16 | Int32 | Int64
  | UInt8 | UInt16 | UInt32 | UInt64
  | Float16 | Float32 | Float64
  | Timestamp (unit : ArrowTimeUnit) (tz : Option String)
  | Date32 | Date64
  | Time32 (unit : ArrowTimeUnit)
  | Time64 (unit : ArrowTimeUnit)
  | Interval (unit : ArrowIntervalUnit)
  | Binary
  | FixedSizeBinary (n : Int)
  | LargeBinary
  | Utf8 | LargeUtf8 | Utf8View
  | List (field : DataType)
  | FixedSizeList (field : DataType) (n : Int)
  | LargeList (field : DataType)
  | Decimal128 (precision : Nat) (scale : Int)
  | Duration (unit : ArrowTimeUnit)
  deriving DecidableEq, Repr

/-- pgwire `Type`: the closed set of wire OIDs this module emits. -/
inductive PgType where
  | UNKNOWN
  | BOOL | CHAR | INT2 | INT4 | INT8
  | FLOAT4 | FLOAT8
  | VARCHAR | TEXT | BYTEA
  | DATE | TIME | TIMESTAMP | TIMESTAMPTZ | INTERVAL
  | BOOL_ARRAY | CHAR_ARRAY | INT2_ARRAY | INT4_ARRAY | INT8_ARRAY
  | FLOAT4_ARRAY | FLOAT8_ARRAY
  | VARCHAR_ARRAY | TEXT_ARRAY | BYTEA_ARRAY
  | DATE_ARRAY | TIME_ARRAY | TIMESTAMP_ARRAY | TIMESTAMPTZ_ARRAY
  | INTERVAL_ARRAY
  deriving DecidableEq, Repr

/-- The `_ARRAY` variant of a scalar wire type (postgres array OID of the
element OID), where one exists. -/
def PgType.arrayVariant : PgType → Option PgType
  | .BOOL => some .BOOL_ARRAY
  | .CHAR => some .CHAR_ARRAY
  | .INT2 => some .INT2_ARRAY
  | .INT4 => some .INT4_ARRAY
  | .INT8 => some .INT8_ARRAY
  | .FLOAT4 => some .FLOAT4_ARRAY
  | .FLOAT8 => some .FLOAT8_ARRAY
  | .VARCHAR => some .VARCHAR_ARRAY
  | .TEXT => some .TEXT_ARRAY
  | .BYTEA => some .BYTEA_ARRAY
  | .DATE => some .DATE_ARRAY
  | .TIME => some .TIME_ARRAY
  | .TIMESTAMP => some .TIMESTAMP_ARRAY
  | .TIMESTAMPTZ => some .TIMESTAMPTZ_ARRAY
  | .INTERVAL => some .INTERVAL_ARRAY
  | _ => none

/-- pgwire `ErrorInfo`: severity, SQLSTATE code, message. -/
structure ErrorInfo where
  severity : String
  code : String
  message : String
  deriving DecidableEq, Repr

/-- pgwire `PgWireError`, restricted to the two constructors the source
uses: `UserError` (boxed `ErrorInfo`) and `ApiError` (boxed cause,
modelled as its rendered message). -/
inductive PgWireError where
  | UserError (info : ErrorInfo)
  | ApiError (cause : String)
  deriving DecidableEq, Repr

/-- Rendering of `ArrowTimeUnit` (Arrow's `Display`). -/
def ArrowTimeUnit.render : ArrowTimeUnit → String
  | .Second => "Second"
  | .Millisecond => "Millisecond"
  | .Microsecond => "Microsecond"
  | .Nanosecond => "Nanosecond"

/-- Rendering of a logical type name, modelling Arrow's `Display for
DataType` closely enough for the diagnostic messages built with
`format!`; no theorem depends on the exact text. -/
def DataType.render : DataType → String
  | .Null => "Null"
  | .Boolean => "Boolean"
  | .Int8 => "Int8"
  | .Int16 => "Int16"
  | .Int32 => "Int32"
  | .Int64 => "Int64"
  | .UInt8 => "UInt8"
  | .UInt16 => "UInt16"
  | .UInt32 => "UInt32"
  | .UInt64 => "UInt64"
  | .Float16 => "Float16"
  | .Float32 => "Float32"
  | .Float64 => "Float64"
  | .Timestamp u none => "Timestamp(" ++ u.render ++ ", None)"
  | .Timestamp u (some z) => "Timestamp(" ++ u.render ++ ", " ++ z ++ ")"
  | .Date32 => "Date32"
  | .Date64 => "Date64"
  | .Time32 u => "Time32(" ++ u.render ++ ")"
  | .Time64 u => "Time64(" ++ u.render ++ ")"
  | .Interval _ => "Interval"
  | .Binary => "Binary"
  | .FixedSizeBinary n => "FixedSizeBinary(" ++ toString n ++ ")"
  | .LargeBinary => "LargeBinary"
  | .Utf8 => "Utf8"
  | .LargeUtf8 => "LargeUtf8"
  | .Utf8View => "Utf8View"
  | .List f => "List(" ++ f.render ++ ")"
  | .FixedSizeList f n => "FixedSizeList(" ++ f.render ++ ", " ++ toString n ++ ")"
  | .LargeList f => "LargeList(" ++ f.render ++ ")"
  | .Decimal128 p s => "Decimal128(" ++ toString p ++ ", " ++ toString s ++ ")"
  | .Duration u => "Duration(" ++ u.render ++ ")"

/-- The `ERROR`/`XX000` user error raised for an unsupported list element
type in `into_pg_type`. -/
def unsupportedListErr (t : DataType) : PgWireError :=
  .UserError ⟨"ERROR", "XX000", "Unsupported List Datatype " ++ t.render⟩

/-- The `ERROR`/`XX000` user error raised for an unsupported type in
`into_pg_type`. -/
def unsupportedErr (t : DataType) : PgWireError :=
  .UserError ⟨"ERROR", "XX000", "Unsupported Datatype " ++ t.render⟩

/-- `into_pg_type` (datatypes.rs, lines 20-83): map an Arrow logical type
to a pgwire wire type, arm by arm. -/
def into_pg_type (df_type : DataType) : Except PgWireError PgType :=
  match df_type with
  | .Null => .ok .UNKNOWN
  | .Boolean => .ok .BOOL
  | .Int8 | .UInt8 => .ok .CHAR
  | .Int16 | .UInt16 => .ok .INT2
  | .Int32 | .UInt32 => .ok .INT4
  | .Int64 | .UInt64 => .ok .INT8
  | .Timestamp _ tz =>
      if tz.isSome then .ok .TIMESTAMPTZ else .ok .TIMESTAMP
  | .Time32 _ | .Time64 _ => .ok .TIME
  | .Date32 | .Date64 => .ok .DATE
  | .Interval _ => .ok .INTERVAL
  | .Binary | .FixedSizeBinary _ | .LargeBinary => .ok .BYTEA
  | .Float16 | .Float32 => .ok .FLOAT4
  | .Float64 => .ok .FLOAT8
  | .Utf8 => .ok .VARCHAR
  | .LargeUtf8 => .ok .TEXT
  | .List field | .FixedSizeList field _ | .LargeList field =>
      match field with
      | .Boolean => .ok .BOOL_ARRAY
      | .Int8 | .UInt8 => .ok .CHAR_ARRAY
      | .Int16 | .UInt16 => .ok .INT2_ARRAY
      | .Int32 | .UInt32 => .ok .INT4_ARRAY
      | .Int64 | .UInt64 => .ok .INT8_ARRAY
      | .Timestamp _ tz =>
          if tz.isSome then .ok .TIMESTAMPTZ_ARRAY else .ok .TIMESTAMP_ARRAY
      | .Time32 _ | .Time64 _ => .ok .TIME_ARRAY
      | .Date32 | .Date64 => .ok .DATE_ARRAY
      | .Interval _ => .ok .INTERVAL_ARRAY
      | .FixedSizeBinary _ | .Binary => .ok .BYTEA_ARRAY
      | .Float16 | .Float32 => .ok .FLOAT4_ARRAY
      | .Float64 => .ok .FLOAT8_ARRAY
      | .Utf8 => .ok .VARCHAR_ARRAY
      | .LargeUtf8 => .ok .TEXT_ARRAY
      | list_type => .error (unsupportedListErr list_type)
  | .Utf8View => .ok .TEXT
  | other => .error (unsupportedErr other)

/-! ## Physical arrays, outcomes and wire values -/

/-- Outcome of running a fragment of Rust code: a value, a returned
`PgWireError`, or a panic (from `unwrap` on a failed downcast or an
out-of-bounds read). -/
inductive Outcome (α : Type) where
  | ok (a : α)
  | err (e : PgWireError)
  | panic

/-- Sequencing of outcomes (`?` plus ordinary control flow). -/
def Outcome.bind {α β : Type} : Outcome α → (α → Outcome β) → Outcome β
  | .ok a, f => f a
  | .err e, _ => .err e
  | .panic, _ => .panic

/-- Mapping over a successful outcome. -/
def Outcome.map {α β : Type} (f : α → β) : Outcome α → Outcome β
  | .ok a => .ok (f a)
  | .err e => .err e
  | .panic => .panic

/-- Rust `Result::unwrap`: an error becomes a panic. -/
def Outcome.unwrap {α : Type} : Outcome α → Outcome α
  | .ok a => .ok a
  | .err _ => .panic
  | .panic => .panic

/-- Physical Arrow array contents.  Each concrete array class the source
downcasts to is one constructor; a slot is `none` when the validity
bitmap marks it null.  Integer payloads are the mathematical values of
the stored machine integers; `f16A`/`f32A`/`f64A` carry IEEE bit
patterns (the encoder only moves them, so bit-level identity is a
faithful model); list arrays carry one child sub-array per slot. -/
inductive Phys where
  | nullA (len : Nat)
  | boolA (vals : List (Option Bool))
  | i8A (vals : List (Option Int))
  | i16A (vals : List (Option Int))
  | i32A (vals : List (Option Int))
  | i64A (vals : List (Option Int))
  | u8A (vals : List (Option Nat))
  | u16A (vals : List (Option Nat))
  | u32A (vals : List (Option Nat))
  | u64A (vals : List (Option Nat))
  | f16A (vals : List (Option Nat))
  | f32A (vals : List (Option Nat))
  | f64A (vals : List (Option Nat))
  | strA (vals : List (Option String))
  | largeStrA (vals : List (Option String))
  | strViewA (vals : List (Option String))
  | binA (vals : List (Option (List Nat)))
  | fixedBinA (vals : List (Option (List Nat)))
  | largeBinA (vals : List (Option (List Nat)))
  | date32A (vals : List (Option Int))
  | date64A (vals : List (Option Int))
  | time32sA (vals : List (Option Int))
  | time32msA (vals : List (Option Int))
  | time64usA (vals : List (Option Int))
  | time64nsA (vals : List (Option Int))
  | tsSecA (vals : List (Option Int))
  | tsMsA (vals : List (Option Int))
  | tsUsA (vals : List (Option Int))
  | tsNsA (vals : List (Option Int))
  | listA (vals : List (Option Phys))
  | fixedListA (vals : List (Option Phys))
  | largeListA (vals : List (Option Phys))

/-- A column: its declared logical type together with its physical
array (Arrow couples the two; well-formedness is stated per theorem). -/
structure Col where
  dtype : DataType
  phys : Phys

/-- A value handed to the row encoder sink (`DataRowEncoder::encode_field`).
`nullV` is the typed absent value (`None` of any encodable Rust type);
`arrV` is a `Vec` of optional elements. -/
inductive WireValue where
  | nullV
  | boolV (b : Bool)
  | i8V (v : Int)
  | i16V (v : Int)
  | i32V (v : Int)
  | i64V (v : Int)
  | u32V (v : Nat)
  | f32V (bits : Nat)
  | f64V (bits : Nat)
  | strV (s : String)
  | bytesV (bs : List Nat)
  | dateV (days : Int)
  | naiveDtV (ns : Int)
  | fixedDtV (ns : Int) (offsetSec : Int)
  | arrV (elems : List (Option WireValue))

/-- `encode_field(&opt)`: `None` encodes as the absent value. -/
def optField {α : Type} (f : α → WireValue) : Option α → WireValue
  | none => .nullV
  | some v => f v

/-! ## chrono and timezone model (external collaborators) -/

/-- Smallest second chrono's `NaiveDateTime` can hold
(midnight of January 1, -262144, proleptic Gregorian). -/
def chronoMinSec : Int := -8334632851200

/-- Largest whole second chrono's `NaiveDateTime` can hold
(23:59:59 of December 31, 262142). -/
def chronoMaxSec : Int := 8210266876799

/-- chrono datetime range check, on nanoseconds since the epoch. -/
def chronoNsOk (ns : Int) : Bool :=
  decide (chronoMinSec * 1000000000 ≤ ns) &&
    decide (ns ≤ chronoMaxSec * 1000000000 + 999999999)

/-- Smallest day number (days since 1970-01-01) of chrono's `NaiveDate`. -/
def chronoMinDay : Int := -96465658

/-- Largest day number of chrono's `NaiveDate`. -/
def chronoMaxDay : Int := 95026236

/-- chrono date range check, on days since the epoch. -/
def chronoDayOk (d : Int) : Bool :=
  decide (chronoMinDay ≤ d) && decide (d ≤ chronoMaxDay)

/-- Nanoseconds per tick of a timestamp unit. -/
def unitNs : ArrowTimeUnit → Int
  | .Second => 1000000000
  | .Millisecond => 1000000
  | .Microsecond => 1000
  | .Nanosecond => 1

/-- Arrow `value_as_datetime` / chrono `DateTime::from_timestamp*`: a raw
value in its native unit becomes a naive datetime (nanoseconds since the
epoch) when chrono can represent it, else `None`. -/
def tsToNaive (u : ArrowTimeUnit) (v : Int) : Option Int :=
  let ns := v * unitNs u
  if chronoNsOk ns then some ns else none

/-- A resolved IANA timezone, as the core uses it: the UTC offset (in
seconds) it assigns to each UTC instant (nanoseconds since the epoch).
Models the external `Tz` zone object of §6. -/
structure TzInfo where
  offsetAt : Int → Int

/-- The IANA zone database resolver (`Tz::from_str`), an external
collaborator: zone name to zone object, `none` on resolution failure. -/
def Tzdb : Type := String → Option TzInfo

/-- A `Tz::from_str` failure surfaces as `PgWireError::ApiError`. -/
def badTzErr (z : String) : PgWireError :=
  .ApiError ("failed to parse timezone " ++ z)

/-! ## Array accessors -/

/-- Arrow `Array::value(idx)`: panics out of bounds; on a null slot it
returns whatever sits in the value buffer (unspecified), modelled as the
type's default and never relied on, since the encoder is only invoked on
non-null cells. -/
def arrowValue {α : Type} (vals : List (Option α)) (dflt : α) (idx : Nat) :
    Outcome α :=
  match vals[idx]? with
  | none => .panic
  | some none => .ok dflt
  | some (some v) => .ok v

/-- `get_bool_value`: downcast to `BooleanArray` and read. -/
def get_bool_value (p : Phys) (idx : Nat) : Outcome Bool :=
  match p with
  | .boolA vals => arrowValue vals false idx
  | _ => .panic

/-- `get_i8_value` (via `get_primitive_value!`). -/
def get_i8_value (p : Phys) (idx : Nat) : Outcome Int :=
  match p with
  | .i8A vals => arrowValue vals 0 idx
  | _ => .panic

/-- `get_i16_value`. -/
def get_i16_value (p : Phys) (idx : Nat) : Outcome Int :=
  match p with
  | .i16A vals => arrowValue vals 0 idx
  | _ => .panic

/-- `get_i32_value`. -/
def get_i32_value (p : Phys) (idx : Nat) : Outcome Int :=
  match p with
  | .i32A vals => arrowValue vals 0 idx
  | _ => .panic

/-- `get_i64_value`. -/
def get_i64_value (p : Phys) (idx : Nat) : Outcome Int :=
  match p with
  | .i64A vals => arrowValue vals 0 idx
  | _ => .panic

/-- `get_u8_value`. -/
def get_u8_value (p : Phys) (idx : Nat) : Outcome Nat :=
  match p with
  | .u8A vals => arrowValue vals 0 idx
  | _ => .panic

/-- `get_u16_value`. -/
def get_u16_value (p : Phys) (idx : Nat) : Outcome Nat :=
  match p with
  | .u16A vals => arrowValue vals 0 idx
  | _ => .panic

/-- `get_u32_value`. -/
def get_u32_value (p : Phys) (idx : Nat) : Outcome Nat :=
  match p with
  | .u32A vals => arrowValue vals 0 idx
  | _ => .panic

/-- `get_u64_value`. -/
def get_u64_value (p : Phys) (idx : Nat) : Outcome Nat :=
  match p with
  | .u64A vals => arrowValue vals 0 idx
  | _ => .panic

/-- `get_f32_value` (bit pattern). -/
def get_f32_value (p : Phys) (idx : Nat) : Outcome Nat :=
  match p with
  | .f32A vals => arrowValue vals 0 idx
  | _ => .panic

/-- `get_f64_value` (bit pattern). -/
def get_f64_value (p : Phys) (idx : Nat) : Outcome Nat :=
  match p with
  | .f64A vals => arrowValue vals 0 idx
  | _ => .panic

/-- `get_utf8_value`: downcast to `StringArray`. -/
def get_utf8_value (p : Phys) (idx : Nat) : Outcome String :=
  match p with
  | .strA vals => arrowValue vals "" idx
  | _ => .panic

/-- `get_large_utf8_value`: downcast to `LargeStringArray`. -/
def get_large_utf8_value (p : Phys) (idx : Nat) : Outcome String :=
  match p with
  | .largeStrA vals => arrowValue vals "" idx
  | _ => .panic

/-- `get_utf8_view_value`: downcast to `StringViewArray`. -/
def get_utf8_view_value (p : Phys) (idx : Nat) : Outcome String :=
  match p with
  | .strViewA vals => arrowValue vals "" idx
  | _ => .panic

/-- `get_binary_value`: downcast to `BinaryArray`. -/
def get_binary_value (p : Phys) (idx : Nat) : Outcome (List Nat) :=
  match p with
  | .binA vals => arrowValue vals [] idx
  | _ => .panic

/-- `get_large_binary_value`: downcast to `LargeBinaryArray`. -/
def get_large_binary_value (p : Phys) (idx : Nat) : Outcome (List Nat) :=
  match p with
  | .largeBinA vals => arrowValue vals [] idx
  | _ => .panic

/-- `get_date32_value`: `Date32Array::value_as_date`, a day number made
into a `NaiveDate` when chrono can represent it. -/
def get_date32_value (p : Phys) (idx : Nat) : Outcome (Option Int) :=
  match p with
  | .date32A vals =>
      (arrowValue vals 0 idx).map fun d =>
        if chronoDayOk d then some d else none
  | _ => .panic

/-- `get_date64_value`: `Date64Array::value_as_date`, milliseconds made
into a datetime and truncated to its date. -/
def get_date64_value (p : Phys) (idx : Nat) : Outcome (Option Int) :=
  match p with
  | .date64A vals =>
      (arrowValue vals 0 idx).map fun ms =>
        if chronoNsOk (ms * 1000000) then some (Int.fdiv ms 86400000) else none
  | _ => .panic

/-- `get_time32_second_value`: seconds-of-day read as a naive datetime
on the epoch day. -/
def get_time32_second_value (p : Phys) (idx : Nat) : Outcome (Option Int) :=
  match p with
  | .time32sA vals =>
      (arrowValue vals 0 idx).map fun v => tsToNaive .Second v
  | _ => .panic

/-- `get_time32_millisecond_value`. -/
def get_time32_millisecond_value (p : Phys) (idx : Nat) : Outcome (Option Int) :=
  match p with
  | .time32msA vals =>
      (arrowValue vals 0 idx).map fun v => tsToNaive .Millisecond v
  | _ => .panic

/-- `get_time64_microsecond_value`. -/
def get_time64_microsecond_value (p : Phys) (idx : Nat) : Outcome (Option Int) :=
  match p with
  | .time64usA vals =>
      (arrowValue vals 0 idx).map fun v => tsToNaive .Microsecond v
  | _ => .panic

/-- `get_time64_nanosecond_value`. -/
def get_time64_nanosecond_value (p : Phys) (idx : Nat) : Outcome (Option Int) :=
  match p with
  | .time64nsA vals =>
      (arrowValue vals 0 idx).map fun v => tsToNaive .Nanosecond v
  | _ => .panic

/-- The bit-preserving cast of a `w`-bit unsigned machine integer to the
same-width signed integer (`v as i8`, `v as i16`, `v as i64`). -/
def toSigned (w : Nat) (v : Nat) : Int :=
  if v < 2 ^ (w - 1) then (v : Int) else (v : Int) - 2 ^ w

/-- `ListArray::value(idx)` after
`downcast_ref::<ListArray>().unwrap()`: panics when the column is not a
plain `ListArray`; a null slot yields an empty typed slice in Arrow,
modelled as an empty null array (unreachable under the adapter's
non-null precondition). -/
def listValue (p : Phys) (idx : Nat) : Outcome Phys :=
  match p with
  | .listA vals =>
      match vals[idx]? with
      | none => .panic
      | some none => .ok (.nullA 0)
      | some (some sub) => .ok sub
  | _ => .panic

/-- `get_bool_list_value`. -/
def get_bool_list_value (p : Phys) (idx : Nat) :
    Outcome (List (Option Bool)) :=
  (listValue p idx).bind fun sub =>
    match sub with
    | .boolA vals => .ok vals
    | _ => .panic

/-- `get_i8_list_value` (via `get_primitive_list_value!`). -/
def get_i8_list_value (p : Phys) (idx : Nat) : Outcome (List (Option Int)) :=
  (listValue p idx).bind fun sub =>
    match sub with
    | .i8A vals => .ok vals
    | _ => .panic

/-- `get_i16_list_value`. -/
def get_i16_list_value (p : Phys) (idx : Nat) : Outcome (List (Option Int)) :=
  (listValue p idx).bind fun sub =>
    match sub with
    | .i16A vals => .ok vals
    | _ => .panic

/-- `get_i32_list_value`. -/
def get_i32_list_value (p : Phys) (idx : Nat) : Outcome (List (Option Int)) :=
  (listValue p idx).bind fun sub =>
    match sub with
    | .i32A vals => .ok vals
    | _ => .panic

/-- `get_i64_list_value`. -/
def get_i64_list_value (p : Phys) (idx : Nat) : Outcome (List (Option Int)) :=
  (listValue p idx).bind fun sub =>
    match sub with
    | .i64A vals => .ok vals
    | _ => .panic

/-- `get_u8_list_value`: elements are cast with `val as i8`. -/
def get_u8_list_value (p : Phys) (idx : Nat) : Outcome (List (Option Int)) :=
  (listValue p idx).bind fun sub =>
    match sub with
    | .u8A vals => .ok (vals.map (Option.map (fun v => toSigned 8 v)))
    | _ => .panic

/-- `get_u16_list_value`: elements are cast with `val as i16`. -/
def get_u16_list_value (p : Phys) (idx : Nat) : Outcome (List (Option Int)) :=
  (listValue p idx).bind fun sub =>
    match sub with
    | .u16A vals => .ok (vals.map (Option.map (fun v => toSigned 16 v)))
    | _ => .panic

/-- `get_u32_list_value`: elements stay `u32`. -/
def get_u32_list_value (p : Phys) (idx : Nat) : Outcome (List (Option Nat)) :=
  (listValue p idx).bind fun sub =>
    match sub with
    | .u32A vals => .ok vals
    | _ => .panic

/-- `get_u64_list_value`: elements are cast with `val as i64`. -/
def get_u64_list_value (p : Phys) (idx : Nat) : Outcome (List (Option Int)) :=
  (listValue p idx).bind fun sub =>
    match sub with
    | .u64A vals => .ok (vals.map (Option.map (fun v => toSigned 64 v)))
    | _ => .panic

/-- `get_f32_list_value`. -/
def get_f32_list_value (p : Phys) (idx : Nat) : Outcome (List (Option Nat)) :=
  (listValue p idx).bind fun sub =>
    match sub with
    | .f32A vals => .ok vals
    | _ => .panic

/-- `get_f64_list_value`. -/
def get_f64_list_value (p : Phys) (idx : Nat) : Outcome (List (Option Nat)) :=
  (listValue p idx).bind fun sub =>
    match sub with
    | .f64A vals => .ok vals
    | _ => .panic

/-! ## Cell encoder -/

/-- The `ERROR`/`XX000` user error of `encode_value`'s scalar catch-all
(the `format!` also renders the array with `Debug`, elided here; no
theorem depends on the text). -/
def unsupportedCellErr (t : DataType) : PgWireError :=
  .UserError ⟨"ERROR", "XX000",
    "Unsupported Datatype " ++ t.render ++ " and array"⟩

/-- The `ERROR`/`XX000` user error of `encode_value`'s list catch-all. -/
def unsupportedListCellErr (t : DataType) : PgWireError :=
  .UserError ⟨"ERROR", "XX000",
    "Unsupported List Datatype " ++ t.render ++ " and array"⟩

/-- The per-unit `downcast_ref::<Timestamp*Array>().unwrap()`. -/
def downcastTs (u : ArrowTimeUnit) (p : Phys) : Outcome (List (Option Int)) :=
  match u, p with
  | .Second, .tsSecA vals => .ok vals
  | .Millisecond, .tsMsA vals => .ok vals
  | .Microsecond, .tsUsA vals => .ok vals
  | .Nanosecond, .tsNsA vals => .ok vals
  | _, _ => .panic

/-- Iterator element of a timezone-bearing timestamp list: out-of-range
values become `None` via `and_then` for second/milli/micro units;
nanoseconds use the infallible `from_timestamp_nanos` and plain `map`. -/
def tsListElemTz (u : ArrowTimeUnit) (tzi : TzInfo) (o : Option Int) :
    Option WireValue :=
  match u with
  | .Nanosecond => o.map (fun i => .fixedDtV i (tzi.offsetAt i))
  | _ => (o.bind (tsToNaive u)).map (fun ns => .fixedDtV ns (tzi.offsetAt ns))

/-- Iterator element of a naive timestamp list. -/
def tsListElemNaive (u : ArrowTimeUnit) (o : Option Int) : Option WireValue :=
  match u with
  | .Nanosecond => o.map .naiveDtV
  | _ => (o.bind (tsToNaive u)).map .naiveDtV

/-- `encode_value` (datatypes.rs, lines 242-625): dispatch on the
column's logical type, read the cell through the typed accessor, and
forward it to the sink.  The result is the list of fields written
(`[f]` on the normal path, `[]` on the silent no-op time-unit arms),
an error, or a panic. -/
def encode_value (tzdb : Tzdb) (col : Col) (idx : Nat) :
    Outcome (List WireValue) :=
  match col.dtype with
  | .Null => .ok [.nullV]
  | .Boolean => (get_bool_value col.phys idx).map fun v => [.boolV v]
  | .Int8 => (get_i8_value col.phys idx).map fun v => [.i8V v]
  | .Int16 => (get_i16_value col.phys idx).map fun v => [.i16V v]
  | .Int32 => (get_i32_value col.phys idx).map fun v => [.i32V v]
  | .Int64 => (get_i64_value col.phys idx).map fun v => [.i64V v]
  | .UInt8 => (get_u8_value col.phys idx).map fun v => [.i8V (toSigned 8 v)]
  | .UInt16 => (get_u16_value col.phys idx).map fun v => [.i16V (toSigned 16 v)]
  | .UInt32 => (get_u32_value col.phys idx).map fun v => [.u32V v]
  | .UInt64 => (get_u64_value col.phys idx).map fun v => [.i64V (toSigned 64 v)]
  | .Float32 => (get_f32_value col.phys idx).map fun v => [.f32V v]
  | .Float64 => (get_f64_value col.phys idx).map fun v => [.f64V v]
  | .Utf8 => (get_utf8_value col.phys idx).map fun s => [.strV s]
  | .Utf8View => (get_utf8_view_value col.phys idx).map fun s => [.strV s]
  | .LargeUtf8 => (get_large_utf8_value col.phys idx).map fun s => [.strV s]
  | .Binary => (get_binary_value col.phys idx).map fun b => [.bytesV b]
  | .LargeBinary => (get_large_binary_value col.phys idx).map fun b => [.bytesV b]
  | .Date32 => (get_date32_value col.phys idx).map fun d => [optField .dateV d]
  | .Date64 => (get_date64_value col.phys idx).map fun d => [optField .dateV d]
  | .Time32 u =>
      match u with
      | .Second =>
          (get_time32_second_value col.phys idx).map fun t =>
            [optField .naiveDtV t]
      | .Millisecond =>
          (get_time32_millisecond_value col.phys idx).map fun t =>
            [optField .naiveDtV t]
      | _ => .ok []
  | .Time64 u =>
      match u with
      | .Microsecond =>
          (get_time64_microsecond_value col.phys idx).map fun t =>
            [optField .naiveDtV t]
      | .Nanosecond =>
          (get_time64_nanosecond_value col.phys idx).map fun t =>
            [optField .naiveDtV t]
      | _ => .ok []
  | .Timestamp u tz =>
      (downcastTs u col.phys).bind fun vals =>
        match tz with
        | some z =>
            match tzdb z with
            | none => .err (badTzErr z)
            | some tzi =>
                (arrowValue vals 0 idx).map fun v =>
                  [optField (fun ns => .fixedDtV ns (tzi.offsetAt ns))
                    (tsToNaive u v)]
        | none =>
            (arrowValue vals 0 idx).map fun v =>
              [optField .naiveDtV (tsToNaive u v)]
  | .List field | .FixedSizeList field _ | .LargeList field =>
      match field with
      | .Null => .ok [.nullV]
      | .Boolean =>
          (get_bool_list_value col.phys idx).map fun vs =>
            [.arrV (vs.map (Option.map .boolV))]
      | .Int8 =>
          (get_i8_list_value col.phys idx).map fun vs =>
            [.arrV (vs.map (Option.map .i8V))]
      | .Int16 =>
          (get_i16_list_value col.phys idx).map fun vs =>
            [.arrV (vs.map (Option.map .i16V))]
      | .Int32 =>
          (get_i32_list_value col.phys idx).map fun vs =>
            [.arrV (vs.map (Option.map .i32V))]
      | .Int64 =>
          (get_i64_list_value col.phys idx).map fun vs =>
            [.arrV (vs.map (Option.map .i64V))]
      | .UInt8 =>
          (get_u8_list_value col.phys idx).map fun vs =>
            [.arrV (vs.map (Option.map .i8V))]
      | .UInt16 =>
          (get_u16_list_value col.phys idx).map fun vs =>
            [.arrV (vs.map (Option.map .i16V))]
      | .UInt32 =>
          (get_u32_list_value col.phys idx).map fun vs =>
            [.arrV (vs.map (Option.map .u32V))]
      | .UInt64 =>
          (get_u64_list_value col.phys idx).map fun vs =>
            [.arrV (vs.map (Option.map .i64V))]
      | .Float32 =>
          (get_f32_list_value col.phys idx).map fun vs =>
            [.arrV (vs.map (Option.map .f32V))]
      | .Float64 =>
          (get_f64_list_value col.phys idx).map fun vs =>
            [.arrV (vs.map (Option.map .f64V))]
      | .Utf8 =>
          ((listValue col.phys idx).bind fun sub =>
            match sub with
            | .strA vals => .ok vals
            | _ => .panic).map fun vs =>
            [.arrV (vs.map (Option.map .strV))]
      | .Binary =>
          ((listValue col.phys idx).bind fun sub =>
            match sub with
            | .binA vals => .ok vals
            | _ => .panic).map fun vs =>
            [.arrV (vs.map (Option.map .bytesV))]
      | .LargeBinary =>
          ((listValue col.phys idx).bind fun sub =>
            match sub with
            | .largeBinA vals => .ok vals
            | _ => .panic).map fun vs =>
            [.arrV (vs.map (Option.map .bytesV))]
      | .Date32 =>
          -- the list arm collects the raw `Option<i32>` day numbers
          ((listValue col.phys idx).bind fun sub =>
            match sub with
            | .date32A vals => .ok vals
            | _ => .panic).map fun vs =>
            [.arrV (vs.map (Option.map .i32V))]
      | .Date64 =>
          ((listValue col.phys idx).bind fun sub =>
            match sub with
            | .date64A vals => .ok vals
            | _ => .panic).map fun vs =>
            [.arrV (vs.map (Option.map .i64V))]
      | .Time32 u =>
          match u with
          | .Second =>
              ((listValue col.phys idx).bind fun sub =>
                match sub with
                | .time32sA vals => .ok vals
                | _ => .panic).map fun vs =>
                [.arrV (vs.map (Option.map .i32V))]
          | .Millisecond =>
              ((listValue col.phys idx).bind fun sub =>
                match sub with
                | .time32msA vals => .ok vals
                | _ => .panic).map fun vs =>
                [.arrV (vs.map (Option.map .i32V))]
          | _ => .ok []
      | .Time64 u =>
          match u with
          | .Microsecond =>
              ((listValue col.phys idx).bind fun sub =>
                match sub with
                | .time64usA vals => .ok vals
                | _ => .panic).map fun vs =>
                [.arrV (vs.map (Option.map .i64V))]
          | .Nanosecond =>
              ((listValue col.phys idx).bind fun sub =>
                match sub with
                | .time64nsA vals => .ok vals
                | _ => .panic).map fun vs =>
                [.arrV (vs.map (Option.map .i64V))]
          | _ => .ok []
      | .Timestamp u tz =>
          (listValue col.phys idx).bind fun sub =>
            (downcastTs u sub).bind fun evals =>
              match tz with
              | some z =>
                  match tzdb z with
                  | none => .err (badTzErr z)
                  | some tzi =>
                      .ok [.arrV (evals.map (tsListElemTz u tzi))]
              | none => .ok [.arrV (evals.map (tsListElemNaive u))]
      | list_type => .err (unsupportedListCellErr list_type)
  | other => .err (unsupportedCellErr other)

/-! ## Batch-to-row adapter -/

/-- Per-column wire format. -/
inductive Fmt where
  | text
  | binary
  deriving DecidableEq, Repr

/-- pgwire `FieldInfo`: column name, wire type, format (table OID and
column id are always `None` in the source and elided). -/
structure FieldInfo where
  name : String
  pg_type : PgType
  fmt : Fmt
  deriving DecidableEq, Repr

/-- `df_schema_to_pg_fields` (lines 627-646): translate each schema
field through `into_pg_type`, pairing it with `format.format_for(idx)`. -/
def df_schema_to_pg_fields (schema : List (String × DataType))
    (format : Nat → Fmt) : Except PgWireError (List FieldInfo) :=
  go schema 0
where
  go : List (String × DataType) → Nat → Except PgWireError (List FieldInfo)
    | [], _ => .ok []
    | (name, dt) :: rest, idx =>
        (into_pg_type dt).bind fun pg_type =>
          (go rest (idx + 1)).map fun tl =>
            ⟨name, pg_type, format idx⟩ :: tl

/-- Null test of a slot (`Array::is_null`). -/
def slotNull {α : Type} (vals : List (Option α)) (idx : Nat) : Bool :=
  match vals[idx]? with
  | some none => true
  | _ => false

/-- `Array::is_null(row)` per physical array; a `NullArray` is null
everywhere. -/
def Phys.isNull : Phys → Nat → Bool
  | .nullA _, _ => true
  | .boolA vals, idx => slotNull vals idx
  | .i8A vals, idx => slotNull vals idx
  | .i16A vals, idx => slotNull vals idx
  | .i32A vals, idx => slotNull vals idx
  | .i64A vals, idx => slotNull vals idx
  | .u8A vals, idx => slotNull vals idx
  | .u16A vals, idx => slotNull vals idx
  | .u32A vals, idx => slotNull vals idx
  | .u64A vals, idx => slotNull vals idx
  | .f16A vals, idx => slotNull vals idx
  | .f32A vals, idx => slotNull vals idx
  | .f64A vals, idx => slotNull vals idx
  | .strA vals, idx => slotNull vals idx
  | .largeStrA vals, idx => slotNull vals idx
  | .strViewA vals, idx => slotNull vals idx
  | .binA vals, idx => slotNull vals idx
  | .fixedBinA vals, idx => slotNull vals idx
  | .largeBinA vals, idx => slotNull vals idx
  | .date32A vals, idx => slotNull vals idx
  | .date64A vals, idx => slotNull vals idx
  | .time32sA vals, idx => slotNull vals idx
  | .time32msA vals, idx => slotNull vals idx
  | .time64usA vals, idx => slotNull vals idx
  | .time64nsA vals, idx => slotNull vals idx
  | .tsSecA vals, idx => slotNull vals idx
  | .tsMsA vals, idx => slotNull vals idx
  | .tsUsA vals, idx => slotNull vals idx
  | .tsNsA vals, idx => slotNull vals idx
  | .listA vals, idx => slotNull vals idx
  | .fixedListA vals, idx => slotNull vals idx
  | .largeListA vals, idx => slotNull vals idx

/-- Length of a physical array. -/
def Phys.len : Phys → Nat
  | .nullA n => n
  | .boolA vals => vals.length
  | .i8A vals => vals.length
  | .i16A vals => vals.length
  | .i32A vals => vals.length
  | .i64A vals => vals.length
  | .u8A vals => vals.length
  | .u16A vals => vals.length
  | .u32A vals => vals.length
  | .u64A vals => vals.length
  | .f16A vals => vals.length
  | .f32A vals => vals.length
  | .f64A vals => vals.length
  | .strA vals => vals.length
  | .largeStrA vals => vals.length
  | .strViewA vals => vals.length
  | .binA vals => vals.length
  | .fixedBinA vals => vals.length
  | .largeBinA vals => vals.length
  | .date32A vals => vals.length
  | .date64A vals => vals.length
  | .time32sA vals => vals.length
  | .time32msA vals => vals.length
  | .time64usA vals => vals.length
  | .time64nsA vals => vals.length
  | .tsSecA vals => vals.length
  | .tsMsA vals => vals.length
  | .tsUsA vals => vals.length
  | .tsNsA vals => vals.length
  | .listA vals => vals.length
  | .fixedListA vals => vals.length
  | .largeListA vals => vals.length

/-- A record batch: the columns (each with its physical data) and the
row count. -/
structure RecordBatch where
  cols : List Col
  nrows : Nat

/-- One row of the adapter (lines 669-680): for each column, emit the
typed absent value when the cell is null, else run `encode_value` —
both behind `.unwrap()`, so a returned error becomes a panic. -/
def encode_row (tzdb : Tzdb) (row : Nat) : List Col → Outcome (List WireValue)
  | [] => .ok []
  | c :: rest =>
      (if c.phys.isNull row then (.ok [.nullV] : Outcome (List WireValue))
       else (encode_value tzdb c row).unwrap).bind fun fs =>
        (encode_row tzdb row rest).map fun tl => fs ++ tl

/-- Rows `i, i+1, …` of one batch (`n` of them), lazily: a panic at some
row stops production, keeping the rows already yielded, and flags the
stream as panicked. -/
def batchRowsFrom (tzdb : Tzdb) (rb : RecordBatch) :
    Nat → Nat → List (Except PgWireError (List WireValue)) × Bool
  | _, 0 => ([], false)
  | i, n + 1 =>
      match encode_row tzdb i rb.cols with
      | .ok fs =>
          let (rest, p) := batchRowsFrom tzdb rb (i + 1) n
          (.ok fs :: rest, p)
      | _ => ([], true)

/-- The flattened row stream of `encode_dataframe` (lines 660-688): an
`Ok` batch contributes its rows in order; an `Err` batch contributes a
single error row (`ApiError` around the cause) and the stream continues
with the following batches; a panic while encoding a row ends the
stream. -/
def pg_row_stream (tzdb : Tzdb) :
    List (Except String RecordBatch) →
      List (Except PgWireError (List WireValue)) × Bool
  | [] => ([], false)
  | .error e :: rest =>
      let (tl, p) := pg_row_stream tzdb rest
      (.error (.ApiError e) :: tl, p)
  | .ok rb :: rest =>
      let (rows, pan) := batchRowsFrom tzdb rb 0 rb.nrows
      if pan then (rows, true)
      else
        let (tl, p) := pg_row_stream tzdb rest
        (rows ++ tl, p)

/-- `encode_dataframe` (lines 648-691): compute the shared field
descriptors from the schema, then stream the rows. -/
def encode_dataframe (tzdb : Tzdb) (schema : List (String × DataType))
    (format : Nat → Fmt) (batches : List (Except String RecordBatch)) :
    Except PgWireError
      (List FieldInfo × (List (Except PgWireError (List WireValue)) × Bool)) :=
  (df_schema_to_pg_fields schema format).map fun fields =>
    (fields, pg_row_stream tzdb batches)

/-! ## Parameter decoder -/

/-- The wire payload of one bound parameter, as the external pgwire
decoder yields it for each native type of §4.3: `nullP` is a wire-level
null; the typed constructors carry an already-decoded native value
(datetimes as nanoseconds since the epoch, dates as day numbers).
A payload read at a mismatched type is a decode error. -/
inductive ParamPayload where
  | nullP
  | boolP (b : Bool)
  | i8P (v : Int)
  | i16P (v : Int)
  | i32P (v : Int)
  | i64P (v : Int)
  | strP (s : String)
  | bytesP (bs : List Nat)
  | f32P (bits : Nat)
  | f64P (bits : Nat)
  | naiveDtP (ns : Int)
  | fixedDtP (ns : Int) (offsetSec : Int)
  | dateP (days : Int)
  deriving DecidableEq, Repr

/-- The portal: the client's declared parameter types and the bound
payloads. -/
structure Portal where
  parameter_types : List PgType
  params : List ParamPayload
  deriving DecidableEq, Repr

/-- `Portal::parameter_len`. -/
def Portal.parameter_len (p : Portal) : Nat := p.params.length

/-- A pgwire-level decode failure of one parameter payload. -/
def paramDecodeErr : PgWireError := .ApiError "invalid parameter value"

/-- The engine's scalar vocabulary (`datafusion::scalar::ScalarValue`),
restricted to the variants the decoder produces; null is the absent
value of the variant. -/
inductive ScalarValue where
  | Boolean (v : Option Bool)
  | Int8 (v : Option Int)
  | Int16 (v : Option Int)
  | Int32 (v : Option Int)
  | Int64 (v : Option Int)
  | Utf8 (v : Option String)
  | Binary (v : Option (List Nat))
  | Float32 (v : Option Nat)
  | Float64 (v : Option Nat)
  | TimestampMicrosecond (v : Option Int) (tz : Option String)
  | Date32 (v : Option Int)
  deriving DecidableEq, Repr

/-- Whether a scalar is the absent value of its variant. -/
def ScalarValue.isAbsent : ScalarValue → Bool
  | .Boolean none => true
  | .Int8 none => true
  | .Int16 none => true
  | .Int32 none => true
  | .Int64 none => true
  | .Utf8 none => true
  | .Binary none => true
  | .Float32 none => true
  | .Float64 none => true
  | .TimestampMicrosecond none _ => true
  | .Date32 none => true
  | _ => false

/-- Two-digit rendering of a nonnegative number. -/
def pad2 (n : Int) : String :=
  if n < 10 then "0" ++ toString n else toString n

/-- chrono's `Display` for `FixedOffset` (`+HH:MM`, with `:SS` appended
for sub-minute offsets). -/
def renderOffset (s : Int) : String :=
  let sign := if s < 0 then "-" else "+"
  let a := if s < 0 then -s else s
  let base := sign ++ pad2 (a / 3600) ++ ":" ++ pad2 (a / 60 % 60)
  if a % 60 = 0 then base else base ++ ":" ++ pad2 (a % 60)

/-- pgwire name of a wire type (`Display for Type`), used in the
unsupported-parameter message. -/
def PgType.render : PgType → String
  | .UNKNOWN => "unknown"
  | .BOOL => "bool"
  | .CHAR => "char"
  | .INT2 => "int2"
  | .INT4 => "int4"
  | .INT8 => "int8"
  | .FLOAT4 => "float4"
  | .FLOAT8 => "float8"
  | .VARCHAR => "varchar"
  | .TEXT => "text"
  | .BYTEA => "bytea"
  | .DATE => "date"
  | .TIME => "time"
  | .TIMESTAMP => "timestamp"
  | .TIMESTAMPTZ => "timestamptz"
  | .INTERVAL => "interval"
  | .BOOL_ARRAY => "_bool"
  | .CHAR_ARRAY => "_char"
  | .INT2_ARRAY => "_int2"
  | .INT4_ARRAY => "_int4"
  | .INT8_ARRAY => "_int8"
  | .FLOAT4_ARRAY => "_float4"
  | .FLOAT8_ARRAY => "_float8"
  | .VARCHAR_ARRAY => "_varchar"
  | .TEXT_ARRAY => "_text"
  | .BYTEA_ARRAY => "_bytea"
  | .DATE_ARRAY => "_date"
  | .TIME_ARRAY => "_time"
  | .TIMESTAMP_ARRAY => "_timestamp"
  | .TIMESTAMPTZ_ARRAY => "_timestamptz"
  | .INTERVAL_ARRAY => "_interval"

/-- The `FATAL`/`XX000` error for a resolved-but-unsupported parameter
wire type (lines 791-797). -/
def unsupportedParamErr (ty : PgType) : PgWireError :=
  .UserError ⟨"FATAL", "XX000", "Unsupported parameter type: " ++ ty.render⟩

/-- The `FATAL`/`XX000` error raised when neither the client hint nor
engine inference yields a type (lines 716-721). -/
def unknownParamTypeErr : PgWireError :=
  .UserError ⟨"FATAL", "XX000", "Unknown parameter type"⟩

/-- `get_pg_type` (lines 707-722): client hint first, else map the
inferred logical type, else fatal. -/
def get_pg_type (pg_type_hint : Option PgType)
    (inferenced_type : Option DataType) : Except PgWireError PgType :=
  match pg_type_hint with
  | some ty => .ok ty
  | none =>
      match inferenced_type with
      | some infer_type => into_pg_type infer_type
      | none => .error unknownParamTypeErr

/-- `portal.parameter::<bool>(i, ..)`: a wire null is `None`; a payload
of another shape fails to decode. -/
def paramBool (p : Portal) (i : Nat) : Except PgWireError (Option Bool) :=
  match p.params[i]? with
  | some .nullP => .ok none
  | some (.boolP b) => .ok (some b)
  | _ => .error paramDecodeErr

/-- `portal.parameter::<i8>(i, ..)`. -/
def paramI8 (p : Portal) (i : Nat) : Except PgWireError (Option Int) :=
  match p.params[i]? with
  | some .nullP => .ok none
  | some (.i8P v) => .ok (some v)
  | _ => .error paramDecodeErr

/-- `portal.parameter::<i16>(i, ..)`. -/
def paramI16 (p : Portal) (i : Nat) : Except PgWireError (Option Int) :=
  match p.params[i]? with
  | some .nullP => .ok none
  | some (.i16P v) => .ok (some v)
  | _ => .error paramDecodeErr

/-- `portal.parameter::<i32>(i, ..)`. -/
def paramI32 (p : Portal) (i : Nat) : Except PgWireError (Option Int) :=
  match p.params[i]? with
  | some .nullP => .ok none
  | some (.i32P v) => .ok (some v)
  | _ => .error paramDecodeErr

/-- `portal.parameter::<i64>(i, ..)`. -/
def paramI64 (p : Portal) (i : Nat) : Except PgWireError (Option Int) :=
  match p.params[i]? with
  | some .nullP => .ok none
  | some (.i64P v) => .ok (some v)
  | _ => .error paramDecodeErr

/-- `portal.parameter::<String>(i, ..)`. -/
def paramStr (p : Portal) (i : Nat) : Except PgWireError (Option String) :=
  match p.params[i]? with
  | some .nullP => .ok none
  | some (.strP s) => .ok (some s)
  | _ => .error paramDecodeErr

/-- `portal.parameter::<Vec<u8>>(i, ..)`. -/
def paramBytes (p : Portal) (i : Nat) :
    Except PgWireError (Option (List Nat)) :=
  match p.params[i]? with
  | some .nullP => .ok none
  | some (.bytesP bs) => .ok (some bs)
  | _ => .error paramDecodeErr

/-- `portal.parameter::<f32>(i, ..)` (bit pattern). -/
def paramF32 (p : Portal) (i : Nat) : Except PgWireError (Option Nat) :=
  match p.params[i]? with
  | some .nullP => .ok none
  | some (.f32P v) => .ok (some v)
  | _ => .error paramDecodeErr

/-- `portal.parameter::<f64>(i, ..)` (bit pattern). -/
def paramF64 (p : Portal) (i : Nat) : Except PgWireError (Option Nat) :=
  match p.params[i]? with
  | some .nullP => .ok none
  | some (.f64P v) => .ok (some v)
  | _ => .error paramDecodeErr

/-- `portal.parameter::<NaiveDateTime>(i, ..)` (ns since epoch). -/
def paramNaiveDt (p : Portal) (i : Nat) : Except PgWireError (Option Int) :=
  match p.params[i]? with
  | some .nullP => .ok none
  | some (.naiveDtP ns) => .ok (some ns)
  | _ => .error paramDecodeErr

/-- `portal.parameter::<DateTime<FixedOffset>>(i, ..)`. -/
def paramFixedDt (p : Portal) (i : Nat) :
    Except PgWireError (Option (Int × Int)) :=
  match p.params[i]? with
  | some .nullP => .ok none
  | some (.fixedDtP ns off) => .ok (some (ns, off))
  | _ => .error paramDecodeErr

/-- `portal.parameter::<NaiveDate>(i, ..)` (days since epoch). -/
def paramDate (p : Portal) (i : Nat) : Except PgWireError (Option Int) :=
  match p.params[i]? with
  | some .nullP => .ok none
  | some (.dateP d) => .ok (some d)
  | _ => .error paramDecodeErr

/-- The body of the `deserialize_parameters` loop for one position
(lines 731-798): decode the payload at the resolved wire type and wrap
it in the matching scalar variant.  `timestamp_micros` floors
nanoseconds to microseconds; `Date32Type::from_naive_date` is the
identity on day numbers. -/
def deserialize_param (portal : Portal) (i : Nat) (pg_type : PgType) :
    Except PgWireError ScalarValue :=
  match pg_type with
  | .BOOL => (paramBool portal i).map .Boolean
  | .CHAR => (paramI8 portal i).map .Int8
  | .INT2 => (paramI16 portal i).map .Int16
  | .INT4 => (paramI32 portal i).map .Int32
  | .INT8 => (paramI64 portal i).map .Int64
  | .TEXT | .VARCHAR => (paramStr portal i).map .Utf8
  | .BYTEA => (paramBytes portal i).map .Binary
  | .FLOAT4 => (paramF32 portal i).map .Float32
  | .FLOAT8 => (paramF64 portal i).map .Float64
  | .TIMESTAMP =>
      (paramNaiveDt portal i).map fun value =>
        .TimestampMicrosecond (value.map fun ns => Int.fdiv ns 1000) none
  | .TIMESTAMPTZ =>
      (paramFixedDt portal i).map fun value =>
        .TimestampMicrosecond (value.map fun t => Int.fdiv t.1 1000)
          (value.map fun t => renderOffset t.2)
  | .DATE => (paramDate portal i).map .Date32
  | other => .error (unsupportedParamErr other)

/-- The loop of `deserialize_parameters`: positions `i, i+1, …`
(`n` of them), resolving each wire type via `get_pg_type` and pushing
one scalar per position. -/
def deserializeLoop (portal : Portal) (inferenced_types : List (Option DataType)) :
    Nat → Nat → Except PgWireError (List ScalarValue)
  | _, 0 => .ok []
  | i, n + 1 =>
      (get_pg_type (portal.parameter_types[i]?)
          ((inferenced_types[i]?).join)).bind fun pg_type =>
        (deserialize_param portal i pg_type).bind fun sv =>
          (deserializeLoop portal inferenced_types (i + 1) n).map fun tl =>
            sv :: tl

/-- `deserialize_parameters` (lines 700-802): one scalar per portal
parameter, in order (the `ParamValues::List` payload). -/
def deserialize_parameters (portal : Portal)
    (inferenced_types : List (Option DataType)) :
    Except PgWireError (List ScalarValue) :=
  deserializeLoop portal inferenced_types 0 portal.parameter_len

/-! ## Well-formedness and palette predicates -/

/-- The pairing of a logical type with its physical array class, as
Arrow guarantees it (the data type determines the concrete array). -/
inductive PhysFor : DataType → Phys → Prop where
  | null_pf (n : Nat) : PhysFor .Null (.nullA n)
  | bool_pf (vs : List (Option Bool)) : PhysFor .Boolean (.boolA vs)
  | i8_pf (vs : List (Option Int)) : PhysFor .Int8 (.i8A vs)
  | i16_pf (vs : List (Option Int)) : PhysFor .Int16 (.i16A vs)
  | i32_pf (vs : List (Option Int)) : PhysFor .Int32 (.i32A vs)
  | i64_pf (vs : List (Option Int)) : PhysFor .Int64 (.i64A vs)
  | u8_pf (vs : List (Option Nat)) : PhysFor .UInt8 (.u8A vs)
  | u16_pf (vs : List (Option Nat)) : PhysFor .UInt16 (.u16A vs)
  | u32_pf (vs : List (Option Nat)) : PhysFor .UInt32 (.u32A vs)
  | u64_pf (vs : List (Option Nat)) : PhysFor .UInt64 (.u64A vs)
  | f16_pf (vs : List (Option Nat)) : PhysFor .Float16 (.f16A vs)
  | f32_pf (vs : List (Option Nat)) : PhysFor .Float32 (.f32A vs)
  | f64_pf (vs : List (Option Nat)) : PhysFor .Float64 (.f64A vs)
  | str_pf (vs : List (Option String)) : PhysFor .Utf8 (.strA vs)
  | largeStr_pf (vs : List (Option String)) : PhysFor .LargeUtf8 (.largeStrA vs)
  | strView_pf (vs : List (Option String)) : PhysFor .Utf8View (.strViewA vs)
  | bin_pf (vs : List (Option (List Nat))) : PhysFor .Binary (.binA vs)
  | fixedBin_pf (n : Int) (vs : List (Option (List Nat))) :
      PhysFor (.FixedSizeBinary n) (.fixedBinA vs)
  | largeBin_pf (vs : List (Option (List Nat))) :
      PhysFor .LargeBinary (.largeBinA vs)
  | date32_pf (vs : List (Option Int)) : PhysFor .Date32 (.date32A vs)
  | date64_pf (vs : List (Option Int)) : PhysFor .Date64 (.date64A vs)
  | time32s_pf (vs : List (Option Int)) :
      PhysFor (.Time32 .Second) (.time32sA vs)
  | time32ms_pf (vs : List (Option Int)) :
      PhysFor (.Time32 .Millisecond) (.time32msA vs)
  | time64us_pf (vs : List (Option Int)) :
      PhysFor (.Time64 .Microsecond) (.time64usA vs)
  | time64ns_pf (vs : List (Option Int)) :
      PhysFor (.Time64 .Nanosecond) (.time64nsA vs)
  | tsSec_pf (tz : Option String) (vs : List (Option Int)) :
      PhysFor (.Timestamp .Second tz) (.tsSecA vs)
  | tsMs_pf (tz : Option String) (vs : List (Option Int)) :
      PhysFor (.Timestamp .Millisecond tz) (.tsMsA vs)
  | tsUs_pf (tz : Option String) (vs : List (Option Int)) :
      PhysFor (.Timestamp .Microsecond tz) (.tsUsA vs)
  | tsNs_pf (tz : Option String) (vs : List (Option Int)) :
      PhysFor (.Timestamp .Nanosecond tz) (.tsNsA vs)
  | list_pf (e : DataType) (vs : List (Option Phys)) :
      PhysFor (.List e) (.listA vs)
  | fixedList_pf (e : DataType) (n : Int) (vs : List (Option Phys)) :
      PhysFor (.FixedSizeList e n) (.fixedListA vs)
  | largeList_pf (e : DataType) (vs : List (Option Phys)) :
      PhysFor (.LargeList e) (.largeListA vs)

/-- For a plain list column, the cell's sub-array exists (the cell is
non-null) and its class matches the element type; trivial elsewhere. -/
def listSlotOk (d : DataType) (p : Phys) (idx : Nat) : Prop :=
  ∀ e vs, d = .List e → p = .listA vs →
    ∃ sub, vs[idx]? = some (some sub) ∧ PhysFor e sub

/-- Element types the list arm of `into_pg_type` maps (everything the
scalar map supports except `Null`, `LargeBinary`, `Utf8View` and nested
lists). -/
def listElemMapped : DataType → Bool
  | .Boolean
  | .Int8 | .Int16 | .Int32 | .Int64
  | .UInt8 | .UInt16 | .UInt32 | .UInt64
  | .Timestamp _ _ | .Time32 _ | .Time64 _ | .Date32 | .Date64
  | .Interval _ | .Binary | .FixedSizeBinary _
  | .Float16 | .Float32 | .Float64
  | .Utf8 | .LargeUtf8 => true
  | _ => false

/-- Modelled from the spec (§4.1): list-of-X is mapped by first mapping
X, then looking up the `_ARRAY` form of the result.  Compared against
`into_pg_type` on list types. -/
def mapListType (x : DataType) : Except PgWireError PgType :=
  (into_pg_type x).bind fun w =>
    match w.arrayVariant with
    | some wa => .ok wa
    | none => .error (unsupportedListErr x)

/-- Scalar §3 palette types (valid time unit pairs only). -/
def paletteScalar : DataType → Bool
  | .Null | .Boolean
  | .Int8 | .Int16 | .Int32 | .Int64
  | .UInt8 | .UInt16 | .UInt32 | .UInt64
  | .Float16 | .Float32 | .Float64
  | .Date32 | .Date64
  | .Time32 .Second | .Time32 .Millisecond
  | .Time64 .Microsecond | .Time64 .Nanosecond
  | .Timestamp _ _ | .Interval _
  | .Binary | .FixedSizeBinary _ | .LargeBinary
  | .Utf8 | .LargeUtf8 | .Utf8View => true
  | _ => false

/-- Scalar types whose non-null cells `encode_value` encodes as one
field (the scalar palette minus `Float16`, `FixedSizeBinary` and
`Interval`, which fall into the unsupported arm). -/
def encodableScalar : DataType → Bool
  | .Null | .Boolean
  | .Int8 | .Int16 | .Int32 | .Int64
  | .UInt8 | .UInt16 | .UInt32 | .UInt64
  | .Float32 | .Float64
  | .Utf8 | .Utf8View | .LargeUtf8
  | .Binary | .LargeBinary
  | .Date32 | .Date64
  | .Time32 .Second | .Time32 .Millisecond
  | .Time64 .Microsecond | .Time64 .Nanosecond
  | .Timestamp _ _ => true
  | _ => false

/-- Element types the list arm of `encode_value` encodes as one field. -/
def encodableListElem : DataType → Bool
  | .Null | .Boolean
  | .Int8 | .Int16 | .Int32 | .Int64
  | .UInt8 | .UInt16 | .UInt32 | .UInt64
  | .Float32 | .Float64
  | .Utf8 | .Binary | .LargeBinary
  | .Date32 | .Date64
  | .Time32 .Second | .Time32 .Millisecond
  | .Time64 .Microsecond | .Time64 .Nanosecond
  | .Timestamp _ _ => true
  | _ => false

/-- Column types whose non-null cells encode into exactly one field. -/
def encodableCol : DataType → Bool
  | .List e => encodableListElem e
  | d => encodableScalar d

/-- Timezone names appearing in the type (scalar or list element)
resolve in the zone database. -/
def tzOk (tzdb : Tzdb) : DataType → Bool
  | .Timestamp _ (some z) => (tzdb z).isSome
  | .List e | .FixedSizeList e _ | .LargeList e =>
      match e with
      | .Timestamp _ (some z) => (tzdb z).isSome
      | _ => true
  | _ => true

/-- Supported element types that read the cell through a `ListArray`
downcast (every `encode_value` list-arm element except `Null`). -/
def elemUsesListArray : DataType → Bool
  | .Null => false
  | e => encodableListElem e

/-- §3 palette types on which the type map succeeds: all palette
scalars, and list kinds over the list arm's mapped elements. -/
def paletteMapped : DataType → Bool
  | .List e | .FixedSizeList e _ | .LargeList e => listElemMapped e
  | d => paletteScalar d

/-- Parameter wire types `deserialize_parameters` supports (§4.3). -/
def supportedParamType : PgType → Bool
  | .BOOL | .CHAR | .INT2 | .INT4 | .INT8
  | .TEXT | .VARCHAR | .BYTEA
  | .FLOAT4 | .FLOAT8
  | .TIMESTAMP | .TIMESTAMPTZ | .DATE => true
  | _ => false

/-- The physical timestamp array class Arrow pairs with each unit. -/
def tsPhys : ArrowTimeUnit → List (Option Int) → Phys
  | .Second, vs => .tsSecA vs
  | .Millisecond, vs => .tsMsA vs
  | .Microsecond, vs => .tsUsA vs
  | .Nanosecond, vs => .tsNsA vs

/-- A non-null in-bounds slot makes `arrowValue` yield its value. -/
theorem arrowValue_ok {α : Type} (vals : List (Option α)) (dflt : α)
    (idx : Nat) (hlen : idx < vals.length)
    (hnn : slotNull vals idx = false) :
    ∃ v, arrowValue vals dflt idx = .ok v ∧ vals[idx]? = some (some v) := by
  match h : vals[idx]? with
  | none =>
      have := List.getElem?_eq_none_iff.mp h
      omega
  | some none =>
      rw [slotNull, h] at hnn
      simp at hnn
  | some (some v) =>
      refine ⟨v, ?_, rfl⟩
      unfold arrowValue
      rw [h]

/-- `Outcome.map` on a success. -/
@[simp] theorem Outcome.map_ok {α β : Type} (f : α → β) (a : α) :
    Outcome.map f (.ok a) = .ok (f a) := rfl

/-- `Outcome.bind` on a success. -/
@[simp] theorem Outcome.bind_ok {α β : Type} (a : α) (f : α → Outcome β) :
    Outcome.bind (.ok a) f = f a := rfl

/-- `Outcome.bind` on a panic. -/
@[simp] theorem Outcome.bind_panic {α β : Type} (f : α → Outcome β) :
    Outcome.bind .panic f = .panic := rfl

/-- `Outcome.bind` on an error. -/
@[simp] theorem Outcome.bind_err {α β : Type} (e : PgWireError)
    (f : α → Outcome β) : Outcome.bind (.err e) f = .err e := rfl

/-- `Outcome.map` on a panic. -/
@[simp] theorem Outcome.map_panic {α β : Type} (f : α → β) :
    Outcome.map f (.panic : Outcome α) = .panic := rfl

/-- `Outcome.map` on an error. -/
@[simp] theorem Outcome.map_err {α β : Type} (f : α → β) (e : PgWireError) :
    Outcome.map f (.err e : Outcome α) = .err e := rfl

/-! ## Claims -/

/-- C1: for every scalar logical type in the palette, `into_pg_type`
returns the wire OID of the §4.1 table: width-8 integers map to `CHAR`,
width-16 to `INT2`, width-32 to `INT4`, width-64 to `INT8` (signed and
unsigned alike); `Timestamp` maps to `TIMESTAMPTZ` iff a timezone is
present and to `TIMESTAMP` otherwise; `Date32`/`Date64` to `DATE`,
`Time32`/`Time64` to `TIME`, `Utf8` to `VARCHAR`, `LargeUtf8` and
`Utf8View` to `TEXT`, `Float16`/`Float32` to `FLOAT4`, `Float64` to
`FLOAT8`, and every `Binary`-family type to `BYTEA`. -/
theorem c1_scalar_type_map :
    (into_pg_type .Int8 = .ok .CHAR) ∧ (into_pg_type .UInt8 = .ok .CHAR) ∧
    (into_pg_type .Int16 = .ok .INT2) ∧ (into_pg_type .UInt16 = .ok .INT2) ∧
    (into_pg_type .Int32 = .ok .INT4) ∧ (into_pg_type .UInt32 = .ok .INT4) ∧
    (into_pg_type .Int64 = .ok .INT8) ∧ (into_pg_type .UInt64 = .ok .INT8) ∧
    (∀ u tz, into_pg_type (.Timestamp u tz) =
      .ok (if tz.isSome then .TIMESTAMPTZ else .TIMESTAMP)) ∧
    (into_pg_type .Date32 = .ok .DATE) ∧ (into_pg_type .Date64 = .ok .DATE) ∧
    (∀ u, into_pg_type (.Time32 u) = .ok .TIME) ∧
    (∀ u, into_pg_type (.Time64 u) = .ok .TIME) ∧
    (into_pg_type .Utf8 = .ok .VARCHAR) ∧
    (into_pg_type .LargeUtf8 = .ok .TEXT) ∧
    (into_pg_type .Utf8View = .ok .TEXT) ∧
    (into_pg_type .Float16 = .ok .FLOAT4) ∧
    (into_pg_type .Float32 = .ok .FLOAT4) ∧
    (into_pg_type .Float64 = .ok .FLOAT8) ∧
    (into_pg_type .Binary = .ok .BYTEA) ∧
    (∀ n, into_pg_type (.FixedSizeBinary n) = .ok .BYTEA) ∧
    (into_pg_type .LargeBinary = .ok .BYTEA) :=
  ⟨rfl, rfl, rfl, rfl, rfl, rfl, rfl, rfl,
   fun _ tz => by cases tz <;> rfl,
   rfl, rfl, fun _ => rfl, fun _ => rfl, rfl, rfl, rfl, rfl, rfl, rfl, rfl,
   fun _ => rfl, rfl⟩

/-- C2 counterexample: `LargeBinary` is a scalar the type map supports
(`BYTEA`, whose `_ARRAY` form exists), yet `List(LargeBinary)` maps to
the `Unsupported` error instead of `BYTEA_ARRAY` — the list mapping
does not factor through the scalar mapping. -/
theorem c2_counterexample :
    into_pg_type DataType.LargeBinary = .ok .BYTEA ∧
    PgType.arrayVariant .BYTEA = some .BYTEA_ARRAY ∧
    mapListType DataType.LargeBinary = .ok .BYTEA_ARRAY ∧
    into_pg_type (DataType.List .LargeBinary) =
      .error (unsupportedListErr .LargeBinary) :=
  ⟨rfl, rfl, rfl, rfl⟩

/-- C2 (amended): for every element type in the list arm's palette —
everything the scalar map supports except `Null`, `LargeBinary` and
`Utf8View` — mapping `List(X)`, `FixedSizeList(X, n)` or `LargeList(X)`
factors through the scalar mapping of `X` followed by the `_ARRAY`
lookup; lists of `Null`, `LargeBinary`, `Utf8View` and of any list are
`Unsupported`. -/
theorem c2_list_factoring (x y : DataType) (n m : Int)
    (h : listElemMapped x = true) :
    (into_pg_type (.List x) = mapListType x ∧
     into_pg_type (.FixedSizeList x n) = mapListType x ∧
     into_pg_type (.LargeList x) = mapListType x) ∧
    (into_pg_type (.List .Null) = .error (unsupportedListErr .Null) ∧
     into_pg_type (.List .LargeBinary) =
       .error (unsupportedListErr .LargeBinary) ∧
     into_pg_type (.List .Utf8View) = .error (unsupportedListErr .Utf8View) ∧
     into_pg_type (.List (.List y)) = .error (unsupportedListErr (.List y)) ∧
     into_pg_type (.List (.FixedSizeList y m)) =
       .error (unsupportedListErr (.FixedSizeList y m)) ∧
     into_pg_type (.List (.LargeList y)) =
       .error (unsupportedListErr (.LargeList y))) := by
  refine ⟨?_, rfl, rfl, rfl, rfl, rfl, rfl⟩
  cases x <;> simp [listElemMapped] at h <;>
    first
      | exact ⟨rfl, rfl, rfl⟩
      | (rename_i tz
         cases tz <;> exact ⟨rfl, rfl, rfl⟩)

/-- C2 witness: the amended factoring at `Int64`. -/
theorem c2_list_factoring_witness :
    listElemMapped DataType.Int64 = true ∧
    into_pg_type (DataType.List .Int64) = mapListType DataType.Int64 ∧
    mapListType DataType.Int64 = .ok .INT8_ARRAY :=
  ⟨rfl, (c2_list_factoring .Int64 .Null 0 0 rfl).1.1, rfl⟩

/-- Helper: the type map succeeds on list types over mapped elements,
with the same result for all three list kinds. -/
theorem into_pg_type_list_ok (e : DataType) (n : Int)
    (h : listElemMapped e = true) :
    ∃ wa, into_pg_type (.List e) = .ok wa ∧
      into_pg_type (.FixedSizeList e n) = .ok wa ∧
      into_pg_type (.LargeList e) = .ok wa := by
  cases e <;> simp [listElemMapped] at h <;>
    first
      | exact ⟨_, rfl, rfl, rfl⟩
      | (rename_i tz
         cases tz <;> exact ⟨_, rfl, rfl, rfl⟩)

/-- Helper: an arm of the shape `accessor.map (fun v => [g v])` writes
exactly one field once the accessor succeeds. -/
theorem map_single {α : Type} (o : Outcome α) (g : α → WireValue)
    (h : ∃ v, o = .ok v) :
    ∃ f, o.map (fun v => [g v]) = .ok [f] := by
  obtain ⟨v, hv⟩ := h
  exact ⟨g v, by rw [hv]; rfl⟩

/-- C3 counterexample: `Float16` is in the §3 palette (and the type map
accepts it), yet `encode_value` on a non-null `Float16` cell returns the
`Unsupported` user error and writes no field. -/
theorem c3_counterexample :
    paletteScalar DataType.Float16 = true ∧
    into_pg_type DataType.Float16 = .ok .FLOAT4 ∧
    Phys.isNull (.f16A [some 5]) 0 = false ∧
    encode_value (fun _ => none) ⟨.Float16, .f16A [some 5]⟩ 0 =
      .err (unsupportedCellErr .Float16) :=
  ⟨rfl, rfl, rfl, rfl⟩

/-- Helper: on every encodable column type, a well-formed, in-bounds,
non-null cell with resolvable timezones encodes to exactly one field. -/
theorem encode_value_total (tzdb : Tzdb) (d : DataType) (p : Phys) (idx : Nat)
    (henc : encodableCol d = true)
    (hphys : PhysFor d p)
    (hslot : listSlotOk d p idx)
    (hlen : idx < p.len)
    (hnn : p.isNull idx = false)
    (htz : tzOk tzdb d = true) :
    ∃ f, encode_value tzdb ⟨d, p⟩ idx = .ok [f] := by
  cases hphys with
  | null_pf n => simp [Phys.isNull] at hnn
  | bool_pf vs =>
      obtain ⟨v, hv, -⟩ := arrowValue_ok vs false idx
        (by simpa [Phys.len] using hlen) (by simpa [Phys.isNull] using hnn)
      simp only [encode_value]
      exact map_single _ _ ⟨v, by simp [get_bool_value, hv]⟩
  | i8_pf vs =>
      obtain ⟨v, hv, -⟩ := arrowValue_ok vs 0 idx
        (by simpa [Phys.len] using hlen) (by simpa [Phys.isNull] using hnn)
      simp only [encode_value]
      exact map_single _ _ ⟨v, by simp [get_i8_value, hv]⟩
  | i16_pf vs =>
      obtain ⟨v, hv, -⟩ := arrowValue_ok vs 0 idx
        (by simpa [Phys.len] using hlen) (by simpa [Phys.isNull] using hnn)
      simp only [encode_value]
      exact map_single _ _ ⟨v, by simp [get_i16_value, hv]⟩
  | i32_pf vs =>
      obtain ⟨v, hv, -⟩ := arrowValue_ok vs 0 idx
        (by simpa [Phys.len] using hlen) (by simpa [Phys.isNull] using hnn)
      simp only [encode_value]
      exact map_single _ _ ⟨v, by simp [get_i32_value, hv]⟩
  | i64_pf vs =>
      obtain ⟨v, hv, -⟩ := arrowValue_ok vs 0 idx
        (by simpa [Phys.len] using hlen) (by simpa [Phys.isNull] using hnn)
      simp only [encode_value]
      exact map_single _ _ ⟨v, by simp [get_i64_value, hv]⟩
  | u8_pf vs =>
      obtain ⟨v, hv, -⟩ := arrowValue_ok vs 0 idx
        (by simpa [Phys.len] using hlen) (by simpa [Phys.isNull] using hnn)
      simp only [encode_value]
      exact map_single _ _ ⟨v, by simp [get_u8_value, hv]⟩
  | u16_pf vs =>
      obtain ⟨v, hv, -⟩ := arrowValue_ok vs 0 idx
        (by simpa [Phys.len] using hlen) (by simpa [Phys.isNull] using hnn)
      simp only [encode_value]
      exact map_single _ _ ⟨v, by simp [get_u16_value, hv]⟩
  | u32_pf vs =>
      obtain ⟨v, hv, -⟩ := arrowValue_ok vs 0 idx
        (by simpa [Phys.len] using hlen) (by simpa [Phys.isNull] using hnn)
      simp only [encode_value]
      exact map_single _ _ ⟨v, by simp [get_u32_value, hv]⟩
  | u64_pf vs =>
      obtain ⟨v, hv, -⟩ := arrowValue_ok vs 0 idx
        (by simpa [Phys.len] using hlen) (by simpa [Phys.isNull] using hnn)
      simp only [encode_value]
      exact map_single _ _ ⟨v, by simp [get_u64_value, hv]⟩
  | f16_pf vs => simp [encodableCol, encodableScalar] at henc
  | f32_pf vs =>
      obtain ⟨v, hv, -⟩ := arrowValue_ok vs 0 idx
        (by simpa [Phys.len] using hlen) (by simpa [Phys.isNull] using hnn)
      simp only [encode_value]
      exact map_single _ _ ⟨v, by simp [get_f32_value, hv]⟩
  | f64_pf vs =>
      obtain ⟨v, hv, -⟩ := arrowValue_ok vs 0 idx
        (by simpa [Phys.len] using hlen) (by simpa [Phys.isNull] using hnn)
      simp only [encode_value]
      exact map_single _ _ ⟨v, by simp [get_f64_value, hv]⟩
  | str_pf vs =>
      obtain ⟨v, hv, -⟩ := arrowValue_ok vs "" idx
        (by simpa [Phys.len] using hlen) (by simpa [Phys.isNull] using hnn)
      simp only [encode_value]
      exact map_single _ _ ⟨v, by simp [get_utf8_value, hv]⟩
  | largeStr_pf vs =>
      obtain ⟨v, hv, -⟩ := arrowValue_ok vs "" idx
        (by simpa [Phys.len] using hlen) (by simpa [Phys.isNull] using hnn)
      simp only [encode_value]
      exact map_single _ _ ⟨v, by simp [get_large_utf8_value, hv]⟩
  | strView_pf vs =>
      obtain ⟨v, hv, -⟩ := arrowValue_ok vs "" idx
        (by simpa [Phys.len] using hlen) (by simpa [Phys.isNull] using hnn)
      simp only [encode_value]
      exact map_single _ _ ⟨v, by simp [get_utf8_view_value, hv]⟩
  | bin_pf vs =>
      obtain ⟨v, hv, -⟩ := arrowValue_ok vs [] idx
        (by simpa [Phys.len] using hlen) (by simpa [Phys.isNull] using hnn)
      simp only [encode_value]
      exact map_single _ _ ⟨v, by simp [get_binary_value, hv]⟩
  | fixedBin_pf n vs => simp [encodableCol, encodableScalar] at henc
  | largeBin_pf vs =>
      obtain ⟨v, hv, -⟩ := arrowValue_ok vs [] idx
        (by simpa [Phys.len] using hlen) (by simpa [Phys.isNull] using hnn)
      simp only [encode_value]
      exact map_single _ _ ⟨v, by simp [get_large_binary_value, hv]⟩
  | date32_pf vs =>
      obtain ⟨v, hv, -⟩ := arrowValue_ok vs 0 idx
        (by simpa [Phys.len] using hlen) (by simpa [Phys.isNull] using hnn)
      simp only [encode_value]
      exact map_single _ _
        ⟨if chronoDayOk v then some v else none,
         by simp [get_date32_value, hv]⟩
  | date64_pf vs =>
      obtain ⟨v, hv, -⟩ := arrowValue_ok vs 0 idx
        (by simpa [Phys.len] using hlen) (by simpa [Phys.isNull] using hnn)
      simp only [encode_value]
      exact map_single _ _
        ⟨if chronoNsOk (v * 1000000) then some (Int.fdiv v 86400000) else none,
         by simp [get_date64_value, hv]⟩
  | time32s_pf vs =>
      obtain ⟨v, hv, -⟩ := arrowValue_ok vs 0 idx
        (by simpa [Phys.len] using hlen) (by simpa [Phys.isNull] using hnn)
      simp only [encode_value]
      exact map_single _ _
        ⟨tsToNaive .Second v, by simp [get_time32_second_value, hv]⟩
  | time32ms_pf vs =>
      obtain ⟨v, hv, -⟩ := arrowValue_ok vs 0 idx
        (by simpa [Phys.len] using hlen) (by simpa [Phys.isNull] using hnn)
      simp only [encode_value]
      exact map_single _ _
        ⟨tsToNaive .Millisecond v, by simp [get_time32_millisecond_value, hv]⟩
  | time64us_pf vs =>
      obtain ⟨v, hv, -⟩ := arrowValue_ok vs 0 idx
        (by simpa [Phys.len] using hlen) (by simpa [Phys.isNull] using hnn)
      simp only [encode_value]
      exact map_single _ _
        ⟨tsToNaive .Microsecond v, by simp [get_time64_microsecond_value, hv]⟩
  | time64ns_pf vs =>
      obtain ⟨v, hv, -⟩ := arrowValue_ok vs 0 idx
        (by simpa [Phys.len] using hlen) (by simpa [Phys.isNull] using hnn)
      simp only [encode_value]
      exact map_single _ _
        ⟨tsToNaive .Nanosecond v, by simp [get_time64_nanosecond_value, hv]⟩
  | tsSec_pf tz vs =>
      obtain ⟨v, hv, -⟩ := arrowValue_ok vs 0 idx
        (by simpa [Phys.len] using hlen) (by simpa [Phys.isNull] using hnn)
      cases tz with
      | none =>
          simp only [encode_value, downcastTs, Outcome.bind]
          exact map_single _ _ ⟨v, hv⟩
      | some z =>
          simp only [tzOk] at htz
          obtain ⟨tzi, htzi⟩ := Option.isSome_iff_exists.mp htz
          simp only [encode_value, downcastTs, Outcome.bind, htzi]
          exact map_single _ _ ⟨v, hv⟩
  | tsMs_pf tz vs =>
      obtain ⟨v, hv, -⟩ := arrowValue_ok vs 0 idx
        (by simpa [Phys.len] using hlen) (by simpa [Phys.isNull] using hnn)
      cases tz with
      | none =>
          simp only [encode_value, downcastTs, Outcome.bind]
          exact map_single _ _ ⟨v, hv⟩
      | some z =>
          simp only [tzOk] at htz
          obtain ⟨tzi, htzi⟩ := Option.isSome_iff_exists.mp htz
          simp only [encode_value, downcastTs, Outcome.bind, htzi]
          exact map_single _ _ ⟨v, hv⟩
  | tsUs_pf tz vs =>
      obtain ⟨v, hv, -⟩ := arrowValue_ok vs 0 idx
        (by simpa [Phys.len] using hlen) (by simpa [Phys.isNull] using hnn)
      cases tz with
      | none =>
          simp only [encode_value, downcastTs, Outcome.bind]
          exact map_single _ _ ⟨v, hv⟩
      | some z =>
          simp only [tzOk] at htz
          obtain ⟨tzi, htzi⟩ := Option.isSome_iff_exists.mp htz
          simp only [encode_value, downcastTs, Outcome.bind, htzi]
          exact map_single _ _ ⟨v, hv⟩
  | tsNs_pf tz vs =>
      obtain ⟨v, hv, -⟩ := arrowValue_ok vs 0 idx
        (by simpa [Phys.len] using hlen) (by simpa [Phys.isNull] using hnn)
      cases tz with
      | none =>
          simp only [encode_value, downcastTs, Outcome.bind]
          exact map_single _ _ ⟨v, hv⟩
      | some z =>
          simp only [tzOk] at htz
          obtain ⟨tzi, htzi⟩ := Option.isSome_iff_exists.mp htz
          simp only [encode_value, downcastTs, Outcome.bind, htzi]
          exact map_single _ _ ⟨v, hv⟩
  | fixedList_pf e n vs => simp [encodableCol, encodableScalar] at henc
  | largeList_pf e vs => simp [encodableCol, encodableScalar] at henc
  | list_pf e vs =>
      obtain ⟨sub, hget, hsub⟩ := hslot e vs rfl rfl
      simp only [encodableCol] at henc
      cases hsub with
      | null_pf n => exact ⟨.nullV, by simp [encode_value]⟩
      | bool_pf evs =>
          simp only [encode_value]
          exact map_single _ _
            ⟨evs, by simp [get_bool_list_value, listValue, hget, Outcome.bind]⟩
      | i8_pf evs =>
          simp only [encode_value]
          exact map_single _ _
            ⟨evs, by simp [get_i8_list_value, listValue, hget, Outcome.bind]⟩
      | i16_pf evs =>
          simp only [encode_value]
          exact map_single _ _
            ⟨evs, by simp [get_i16_list_value, listValue, hget, Outcome.bind]⟩
      | i32_pf evs =>
          simp only [encode_value]
          exact map_single _ _
            ⟨evs, by simp [get_i32_list_value, listValue, hget, Outcome.bind]⟩
      | i64_pf evs =>
          simp only [encode_value]
          exact map_single _ _
            ⟨evs, by simp [get_i64_list_value, listValue, hget, Outcome.bind]⟩
      | u8_pf evs =>
          simp only [encode_value]
          exact map_single _ _
            ⟨evs.map (Option.map (fun v => toSigned 8 v)),
             by simp [get_u8_list_value, listValue, hget, Outcome.bind]⟩
      | u16_pf evs =>
          simp only [encode_value]
          exact map_single _ _
            ⟨evs.map (Option.map (fun v => toSigned 16 v)),
             by simp [get_u16_list_value, listValue, hget, Outcome.bind]⟩
      | u32_pf evs =>
          simp only [encode_value]
          exact map_single _ _
            ⟨evs, by simp [get_u32_list_value, listValue, hget, Outcome.bind]⟩
      | u64_pf evs =>
          simp only [encode_value]
          exact map_single _ _
            ⟨evs.map (Option.map (fun v => toSigned 64 v)),
             by simp [get_u64_list_value, listValue, hget, Outcome.bind]⟩
      | f16_pf evs => simp [encodableListElem] at henc
      | f32_pf evs =>
          simp only [encode_value]
          exact map_single _ _
            ⟨evs, by simp [get_f32_list_value, listValue, hget, Outcome.bind]⟩
      | f64_pf evs =>
          simp only [encode_value]
          exact map_single _ _
            ⟨evs, by simp [get_f64_list_value, listValue, hget, Outcome.bind]⟩
      | str_pf evs =>
          simp only [encode_value]
          exact map_single _ _
            ⟨evs, by simp [listValue, hget, Outcome.bind]⟩
      | largeStr_pf evs => simp [encodableListElem] at henc
      | strView_pf evs => simp [encodableListElem] at henc
      | bin_pf evs =>
          simp only [encode_value]
          exact map_single _ _
            ⟨evs, by simp [listValue, hget, Outcome.bind]⟩
      | fixedBin_pf n evs => simp [encodableListElem] at henc
      | largeBin_pf evs =>
          simp only [encode_value]
          exact map_single _ _
            ⟨evs, by simp [listValue, hget, Outcome.bind]⟩
      | date32_pf evs =>
          simp only [encode_value]
          exact map_single _ _
            ⟨evs, by simp [listValue, hget, Outcome.bind]⟩
      | date64_pf evs =>
          simp only [encode_value]
          exact map_single _ _
            ⟨evs, by simp [listValue, hget, Outcome.bind]⟩
      | time32s_pf evs =>
          simp only [encode_value]
          exact map_single _ _
            ⟨evs, by simp [listValue, hget, Outcome.bind]⟩
      | time32ms_pf evs =>
          simp only [encode_value]
          exact map_single _ _
            ⟨evs, by simp [listValue, hget, Outcome.bind]⟩
      | time64us_pf evs =>
          simp only [encode_value]
          exact map_single _ _
            ⟨evs, by simp [listValue, hget, Outcome.bind]⟩
      | time64ns_pf evs =>
          simp only [encode_value]
          exact map_single _ _
            ⟨evs, by simp [listValue, hget, Outcome.bind]⟩
      | tsSec_pf tz evs =>
          cases tz with
          | none =>
              exact ⟨.arrV (evs.map (tsListElemNaive .Second)),
                by simp [encode_value, listValue, hget, downcastTs, Outcome.bind]⟩
          | some z =>
              simp only [tzOk] at htz
              obtain ⟨tzi, htzi⟩ := Option.isSome_iff_exists.mp htz
              exact ⟨.arrV (evs.map (tsListElemTz .Second tzi)),
                by simp [encode_value, listValue, hget, downcastTs, Outcome.bind,
                  htzi]⟩
      | tsMs_pf tz evs =>
          cases tz with
          | none =>
              exact ⟨.arrV (evs.map (tsListElemNaive .Millisecond)),
                by simp [encode_value, listValue, hget, downcastTs, Outcome.bind]⟩
          | some z =>
              simp only [tzOk] at htz
              obtain ⟨tzi, htzi⟩ := Option.isSome_iff_exists.mp htz
              exact ⟨.arrV (evs.map (tsListElemTz .Millisecond tzi)),
                by simp [encode_value, listValue, hget, downcastTs, Outcome.bind,
                  htzi]⟩
      | tsUs_pf tz evs =>
          cases tz with
          | none =>
              exact ⟨.arrV (evs.map (tsListElemNaive .Microsecond)),
                by simp [encode_value, listValue, hget, downcastTs, Outcome.bind]⟩
          | some z =>
              simp only [tzOk] at htz
              obtain ⟨tzi, htzi⟩ := Option.isSome_iff_exists.mp htz
              exact ⟨.arrV (evs.map (tsListElemTz .Microsecond tzi)),
                by simp [encode_value, listValue, hget, downcastTs, Outcome.bind,
                  htzi]⟩
      | tsNs_pf tz evs =>
          cases tz with
          | none =>
              exact ⟨.arrV (evs.map (tsListElemNaive .Nanosecond)),
                by simp [encode_value, listValue, hget, downcastTs, Outcome.bind]⟩
          | some z =>
              simp only [tzOk] at htz
              obtain ⟨tzi, htzi⟩ := Option.isSome_iff_exists.mp htz
              exact ⟨.arrV (evs.map (tsListElemTz .Nanosecond tzi)),
                by simp [encode_value, listValue, hget, downcastTs, Outcome.bind,
                  htzi]⟩
      | list_pf e2 evs => simp [encodableListElem] at henc
      | fixedList_pf e2 n evs => simp [encodableListElem] at henc
      | largeList_pf e2 evs => simp [encodableListElem] at henc

/-- C3 (amended): the type map returns a wire type for every §3 palette
type except lists whose element is `Null`, `LargeBinary`, `Utf8View` or
a nested list; and `encode_value` writes exactly one field, without
panicking or erroring, for every non-null well-formed cell of an
encodable column type — all palette scalars except `Float16`,
`FixedSizeBinary` and `Interval`, and plain `List` columns over the
list arm's element types — provided its timezone names resolve. -/
theorem c3_palette_totality (tzdb : Tzdb) (dm d : DataType) (p : Phys)
    (idx : Nat)
    (hdm : paletteMapped dm = true)
    (henc : encodableCol d = true)
    (hphys : PhysFor d p)
    (hslot : listSlotOk d p idx)
    (hlen : idx < p.len)
    (hnn : p.isNull idx = false)
    (htz : tzOk tzdb d = true) :
    (∃ w, into_pg_type dm = .ok w) ∧
    ∃ f, encode_value tzdb ⟨d, p⟩ idx = .ok [f] := by
  refine ⟨?_, encode_value_total tzdb d p idx henc hphys hslot hlen hnn htz⟩
  cases dm
  case List e =>
      simp only [paletteMapped] at hdm
      obtain ⟨wa, h1, -, -⟩ := into_pg_type_list_ok e 0 hdm
      exact ⟨wa, h1⟩
  case FixedSizeList e n =>
      simp only [paletteMapped] at hdm
      obtain ⟨wa, -, h2, -⟩ := into_pg_type_list_ok e n hdm
      exact ⟨wa, h2⟩
  case LargeList e =>
      simp only [paletteMapped] at hdm
      obtain ⟨wa, -, -, h3⟩ := into_pg_type_list_ok e 0 hdm
      exact ⟨wa, h3⟩
  case Timestamp u tz => cases tz <;> exact ⟨_, rfl⟩
  case Decimal128 pr sc => simp [paletteMapped, paletteScalar] at hdm
  case Duration u => simp [paletteMapped, paletteScalar] at hdm
  all_goals exact ⟨_, rfl⟩

/-- C3 witness: the amended totality at a `List(Int64)` column holding
`[1, null, 3]`. -/
theorem c3_palette_totality_witness :
    (∃ w, into_pg_type (DataType.List .Int64) = .ok w) ∧
    ∃ f, encode_value (fun _ => none)
      ⟨.List .Int64, .listA [some (.i64A [some 1, none, some 3])]⟩ 0 =
        .ok [f] :=
  c3_palette_totality (fun _ => none) (.List .Int64) (.List .Int64)
    (.listA [some (.i64A [some 1, none, some 3])]) 0 rfl rfl (.list_pf _ _)
    (fun e vs he hv => by
      injection he with h1
      subst h1
      injection hv with h2
      subst h2
      exact ⟨.i64A [some 1, none, some 3], rfl, .i64_pf _⟩)
    (by simp [Phys.len]) rfl rfl

/-- C4 counterexample: on a batch whose single `Float16` column makes
`encode_value` return the `Unsupported` user error at row 0, the
adapter's output contains no error result for that row and no
subsequent rows — the `.unwrap()` turns the cell error into a panic
that ends the stream (rows: none; panicked: true), where the claim
promises an error row followed by row 1. -/
theorem c4_counterexample :
    encode_value (fun _ => none) ⟨.Float16, .f16A [some 1, some 2]⟩ 0 =
      .err (unsupportedCellErr .Float16) ∧
    Phys.isNull (.f16A [some 1, some 2]) 0 = false ∧
    pg_row_stream (fun _ => none)
      [.ok ⟨[⟨.Float16, .f16A [some 1, some 2]⟩], 2⟩] = ([], true) :=
  ⟨rfl, rfl, rfl⟩

/-- C4 (amended): an upstream batch error is surfaced as a single
`ApiError` row and the stream continues with the following batches; a
cell for which `encode_value` returns an error makes the whole row
panic (`unwrap`), and a panicking row ends the output, dropping the
remaining rows and batches. -/
theorem c4_stream_semantics (tzdb : Tzdb) (e : String) (err0 : PgWireError)
    (rest : List (Except String RecordBatch)) (rb : RecordBatch)
    (c : Col) (cs : List Col) (row : Nat) :
    (pg_row_stream tzdb (.error e :: rest) =
      ((.error (.ApiError e)) :: (pg_row_stream tzdb rest).1,
        (pg_row_stream tzdb rest).2)) ∧
    (c.phys.isNull row = false → encode_value tzdb c row = .err err0 →
      encode_row tzdb row (c :: cs) = .panic) ∧
    ((batchRowsFrom tzdb rb 0 rb.nrows).2 = true →
      pg_row_stream tzdb (.ok rb :: rest) =
        ((batchRowsFrom tzdb rb 0 rb.nrows).1, true)) := by
  refine ⟨?_, ?_, ?_⟩
  · rcases hpr : pg_row_stream tzdb rest with ⟨tl, pr2⟩
    simp [pg_row_stream, hpr]
  · intro h1 h2
    simp [encode_row, h1, h2, Outcome.unwrap]
  · intro hpan
    rcases hbr : batchRowsFrom tzdb rb 0 rb.nrows with ⟨rows, pan⟩
    rw [hbr] at hpan
    simp at hpan
    subst hpan
    simp [pg_row_stream, hbr]

/-- C4 witness: the amended stream semantics at concrete batches — a
cell error panics the row, an upstream error row is followed by the
next batch's row, and a panicking batch truncates the stream. -/
theorem c4_stream_semantics_witness :
    encode_row (fun _ => none) 0 [⟨.Float16, .f16A [some 1]⟩] = .panic ∧
    pg_row_stream (fun _ => none)
        [.error "boom", .ok ⟨[⟨.Boolean, .boolA [some true]⟩], 1⟩] =
      ([.error (.ApiError "boom"), .ok [.boolV true]], false) ∧
    pg_row_stream (fun _ => none)
        [.ok ⟨[⟨.Float16, .f16A [some 1]⟩], 1⟩,
         .ok ⟨[⟨.Boolean, .boolA [some true]⟩], 1⟩] = ([], true) := by
  have h1 := c4_stream_semantics (fun _ => none) "boom"
    (unsupportedCellErr .Float16)
    [.ok ⟨[⟨.Boolean, .boolA [some true]⟩], 1⟩]
    ⟨[⟨.Float16, .f16A [some 1]⟩], 1⟩ ⟨.Float16, .f16A [some 1]⟩ [] 0
  exact ⟨h1.2.1 rfl rfl, h1.1.trans rfl, (h1.2.2 rfl).trans rfl⟩

/-- C5 counterexample: decoding a parameter whose resolved wire type is
`TIME` (outside the supported §4.3 set) raises severity `FATAL`, not
the claimed `ERROR`. -/
theorem c5_counterexample :
    deserialize_parameters ⟨[.TIME], [.nullP]⟩ [] =
      .error (unsupportedParamErr .TIME) ∧
    unsupportedParamErr .TIME =
      .UserError ⟨"FATAL", "XX000", "Unsupported parameter type: time"⟩ ∧
    ("FATAL" : String) ≠ "ERROR" :=
  ⟨rfl, rfl, by decide⟩

/-- C5 (amended): decoding a parameter whose resolved wire type is
outside the supported §4.3 set raises severity `FATAL`, code `XX000`
(message `Unsupported parameter type: …`) — the same severity as the
unresolvable-type error (`Unknown parameter type`), so `FATAL` is not
reserved for unresolvable types; when no hint is given and the
engine-inferred logical type is itself unsupported, the type map's own
`ERROR`/`XX000` error propagates unchanged out of the decoder. -/
theorem c5_param_errors (portal : Portal) (inferred : List (Option DataType))
    (ty : PgType) (dt : DataType) (err0 : PgWireError)
    (h3 : 0 < portal.parameter_len) :
    (portal.parameter_types[0]? = some ty → supportedParamType ty = false →
      deserialize_parameters portal inferred =
        .error (unsupportedParamErr ty)) ∧
    (portal.parameter_types[0]? = none → (inferred[0]?).join = none →
      deserialize_parameters portal inferred =
        .error unknownParamTypeErr) ∧
    (portal.parameter_types[0]? = none → (inferred[0]?).join = some dt →
      into_pg_type dt = .error err0 →
      deserialize_parameters portal inferred = .error err0) := by
  have hn : portal.parameter_len = (portal.parameter_len - 1) + 1 :=
    (Nat.succ_pred_eq_of_pos h3).symm
  refine ⟨?_, ?_, ?_⟩
  · intro h1 h2
    rw [deserialize_parameters, hn]
    simp only [deserializeLoop, h1, get_pg_type]
    cases ty <;> simp [supportedParamType] at h2 <;>
      simp [deserialize_param, Except.bind]
  · intro h1 h2
    rw [deserialize_parameters, hn]
    have h2' : (inferred[0]?.bind fun a => a) = none := by
      cases hi : inferred[0]? with
      | none => rfl
      | some o =>
          rw [hi] at h2
          simpa [Option.join] using h2
    simp [deserializeLoop, h1, h2', get_pg_type, Except.bind]
  · intro h1 h2 h4
    rw [deserialize_parameters, hn]
    have h2' : (inferred[0]?.bind fun a => a) = some dt := by
      cases hi : inferred[0]? with
      | none => rw [hi] at h2; simp [Option.join] at h2
      | some o =>
          rw [hi] at h2
          simp only [Option.join] at h2
          simpa using h2
    simp [deserializeLoop, h1, h2', get_pg_type, h4, Except.bind]

/-- C5 witness: the amended severities at a `TIME`-typed parameter, at
a hintless, uninferred parameter, and at a hintless parameter whose
inferred type (`Duration`) the type map rejects with `ERROR`. -/
theorem c5_param_errors_witness :
    deserialize_parameters ⟨[.TIME], [.boolP true]⟩ [] =
      .error (unsupportedParamErr .TIME) ∧
    deserialize_parameters ⟨[], [.boolP true]⟩ [] =
      .error unknownParamTypeErr ∧
    deserialize_parameters ⟨[], [.boolP true]⟩ [some (.Duration .Second)] =
      .error (unsupportedErr (.Duration .Second)) :=
  ⟨(c5_param_errors ⟨[.TIME], [.boolP true]⟩ [] .TIME .Null
      (unsupportedErr (.Duration .Second)) (by decide)).1 rfl rfl,
   (c5_param_errors ⟨[], [.boolP true]⟩ [] .TIME .Null
      (unsupportedErr (.Duration .Second)) (by decide)).2.1 rfl rfl,
   (c5_param_errors ⟨[], [.boolP true]⟩ [some (.Duration .Second)] .TIME
      (.Duration .Second) (unsupportedErr (.Duration .Second))
      (by decide)).2.2 rfl rfl rfl⟩

/-- Helper: `toSigned` is the two's-complement reinterpretation — it
preserves the residue modulo `2^w` and lands in the `w`-bit signed
range. -/
theorem toSigned_bitcast (w x : Nat) (hw : 0 < w) (hx : x < 2 ^ w) :
    toSigned w x % (2 ^ w) = (x : Int) % (2 ^ w) ∧
    -(2 ^ (w - 1) : Int) ≤ toSigned w x ∧ toSigned w x < 2 ^ (w - 1) := by
  have h2 : (2 : Int) ^ w = 2 * 2 ^ (w - 1) := by
    conv_lhs => rw [show w = (w - 1) + 1 by omega]
    ring
  have hA : (0 : Int) < 2 ^ (w - 1) := pow_pos (by norm_num) _
  unfold toSigned
  by_cases h : x < 2 ^ (w - 1)
  · have hxi : (x : Int) < 2 ^ (w - 1) := by exact_mod_cast h
    rw [if_pos h]
    refine ⟨rfl, ?_, hxi⟩
    have hx0 : (0 : Int) ≤ (x : Int) := Int.ofNat_nonneg x
    omega
  · have hxi : (2 : Int) ^ (w - 1) ≤ (x : Int) := by
      have := Nat.le_of_not_lt h
      exact_mod_cast this
    have hxu : (x : Int) < 2 ^ w := by exact_mod_cast hx
    rw [if_neg h]
    refine ⟨?_, by omega, by omega⟩
    rw [Int.sub_emod, Int.emod_self]
    simp [Int.emod_emod_of_dvd]

/-- C6: a non-null unsigned cell of width 8, 16 or 64 holding `v` is
emitted as the bit-preserving same-width signed cast of `v` (two's
complement reinterpretation), in both the scalar path and the
list-element path, while a `u32` cell is emitted as-is, uncast; the
last conjunct pins `toSigned` down as the bit-preserving cast. -/
theorem c6_unsigned_projection (tzdb : Tzdb) (idx : Nat) (v : Nat)
    (vs : List (Option Nat)) (hv : vs[idx]? = some (some v)) :
    (encode_value tzdb ⟨.UInt8, .u8A vs⟩ idx = .ok [.i8V (toSigned 8 v)]) ∧
    (encode_value tzdb ⟨.UInt16, .u16A vs⟩ idx = .ok [.i16V (toSigned 16 v)]) ∧
    (encode_value tzdb ⟨.UInt64, .u64A vs⟩ idx = .ok [.i64V (toSigned 64 v)]) ∧
    (encode_value tzdb ⟨.UInt32, .u32A vs⟩ idx = .ok [.u32V v]) ∧
    (∀ j lv, lv[j]? = some (some (Phys.u8A vs)) →
      encode_value tzdb ⟨.List .UInt8, .listA lv⟩ j =
        .ok [.arrV (vs.map (Option.map fun x => .i8V (toSigned 8 x)))]) ∧
    (∀ j lv, lv[j]? = some (some (Phys.u16A vs)) →
      encode_value tzdb ⟨.List .UInt16, .listA lv⟩ j =
        .ok [.arrV (vs.map (Option.map fun x => .i16V (toSigned 16 x)))]) ∧
    (∀ j lv, lv[j]? = some (some (Phys.u64A vs)) →
      encode_value tzdb ⟨.List .UInt64, .listA lv⟩ j =
        .ok [.arrV (vs.map (Option.map fun x => .i64V (toSigned 64 x)))]) ∧
    (∀ j lv, lv[j]? = some (some (Phys.u32A vs)) →
      encode_value tzdb ⟨.List .UInt32, .listA lv⟩ j =
        .ok [.arrV (vs.map (Option.map .u32V))]) ∧
    (∀ w x, 0 < w → x < 2 ^ w →
      toSigned w x % (2 ^ w) = (x : Int) % (2 ^ w) ∧
      -(2 ^ (w - 1) : Int) ≤ toSigned w x ∧ toSigned w x < 2 ^ (w - 1)) := by
  refine ⟨?_, ?_, ?_, ?_, ?_, ?_, ?_, ?_,
    fun w x hw hx => toSigned_bitcast w x hw hx⟩
  · simp [encode_value, get_u8_value, arrowValue, hv]
  · simp [encode_value, get_u16_value, arrowValue, hv]
  · simp [encode_value, get_u64_value, arrowValue, hv]
  · simp [encode_value, get_u32_value, arrowValue, hv]
  · intro j lv hl
    simp [encode_value, get_u8_list_value, listValue, hl, List.map_map]
    intro a ha
    cases a <;> rfl
  · intro j lv hl
    simp [encode_value, get_u16_list_value, listValue, hl, List.map_map]
    intro a ha
    cases a <;> rfl
  · intro j lv hl
    simp [encode_value, get_u64_list_value, listValue, hl, List.map_map]
    intro a ha
    cases a <;> rfl
  · intro j lv hl
    simp [encode_value, get_u32_list_value, listValue, hl]

/-- C6 witness: the projection at `v = 255` in a `u8` column and the
bit-cast characterization at width 8. -/
theorem c6_unsigned_projection_witness :
    encode_value (fun _ => none) ⟨.UInt8, .u8A [some 255]⟩ 0 =
      .ok [.i8V (-1)] ∧
    toSigned 8 255 % (2 ^ 8) = (255 : Int) % (2 ^ 8) := by
  have h := c6_unsigned_projection (fun _ => none) 0 255 [some 255] rfl
  exact ⟨h.1.trans (by norm_num [toSigned]),
    (h.2.2.2.2.2.2.2.2 8 255 (by norm_num) (by norm_num)).1⟩

/-- Helper: the decode loop yields one scalar per position, each
decoded at the wire type resolved for its own position. -/
theorem deserializeLoop_spec (portal : Portal)
    (inf : List (Option DataType)) :
    ∀ n i out, deserializeLoop portal inf i n = .ok out →
      out.length = n ∧
      ∀ k, k < n → ∃ ty sv,
        get_pg_type (portal.parameter_types[i + k]?) ((inf[i + k]?).join) =
          .ok ty ∧
        deserialize_param portal (i + k) ty = .ok sv ∧
        out[k]? = some sv := by
  intro n
  induction n with
  | zero =>
      intro i out h
      simp only [deserializeLoop] at h
      injection h with h
      subst h
      exact ⟨rfl, fun k hk => absurd hk (by omega)⟩
  | succ n ih =>
      intro i out h
      simp only [deserializeLoop] at h
      cases hty : get_pg_type (portal.parameter_types[i]?) ((inf[i]?).join) with
      | error e => rw [hty] at h; simp [Except.bind] at h
      | ok ty =>
          rw [hty] at h
          simp only [Except.bind] at h
          cases hsv : deserialize_param portal i ty with
          | error e => rw [hsv] at h; simp at h
          | ok sv =>
              rw [hsv] at h
              simp only at h
              cases htl : deserializeLoop portal inf (i + 1) n with
              | error e => rw [htl] at h; simp [Except.map] at h
              | ok tl =>
                  rw [htl] at h
                  simp only [Except.map] at h
                  injection h with h
                  subst h
                  obtain ⟨hlen, hk⟩ := ih (i + 1) tl htl
                  refine ⟨by simp [hlen], ?_⟩
                  intro k hkn
                  cases k with
                  | zero =>
                      exact ⟨ty, sv, by simpa using hty, by simpa using hsv,
                        by simp⟩
                  | succ k2 =>
                      obtain ⟨ty2, sv2, h1, h2, h3⟩ := hk k2 (by omega)
                      have hi : i + 1 + k2 = i + (k2 + 1) := by omega
                      rw [hi] at h1 h2
                      exact ⟨ty2, sv2, h1, h2, by simpa using h3⟩

/-- Helper: a wire-level null decodes to the absent value of whichever
scalar variant the wire type selects. -/
theorem deserialize_param_null (portal : Portal) (i : Nat) (ty : PgType)
    (sv : ScalarValue) (hnull : portal.params[i]? = some .nullP)
    (h : deserialize_param portal i ty = .ok sv) : sv.isAbsent = true := by
  cases ty <;>
    simp [deserialize_param, paramBool, paramI8, paramI16, paramI32, paramI64,
      paramStr, paramBytes, paramF32, paramF64, paramNaiveDt, paramFixedDt,
      paramDate, hnull, Except.map] at h <;>
    (subst h; rfl)

/-- C7: a successful `deserialize_parameters` returns exactly one scalar
per portal parameter, positionally aligned, position `k` decoded at the
wire type resolved hint-first (client hint, else the inferred logical
type through the type map); a wire-level null at position `k` becomes
the absent value of the variant at `k`. -/
theorem c7_parameter_decoding (portal : Portal)
    (inf : List (Option DataType)) (out : List ScalarValue)
    (h : deserialize_parameters portal inf = .ok out) :
    out.length = portal.parameter_len ∧
    (∀ k, k < portal.parameter_len → ∃ ty sv,
      get_pg_type (portal.parameter_types[k]?) ((inf[k]?).join) = .ok ty ∧
      deserialize_param portal k ty = .ok sv ∧ out[k]? = some sv) ∧
    (∀ (k : Nat) (sv : ScalarValue), portal.params[k]? = some .nullP →
      out[k]? = some sv → sv.isAbsent = true) := by
  obtain ⟨hlen, hpos⟩ :=
    deserializeLoop_spec portal inf portal.parameter_len 0 out h
  refine ⟨hlen, fun k hk => by simpa using hpos k hk, ?_⟩
  intro k sv hnull hout
  have hklt : k < out.length := (List.getElem?_eq_some.mp hout).1
  obtain ⟨ty, sv2, h1, h2, h3⟩ := hpos k (by omega)
  rw [hout] at h3
  injection h3 with h4
  rw [Nat.zero_add] at h2
  subst h4
  exact deserialize_param_null portal k ty sv hnull h2

/-- C7 witness: two parameters, an `INT4` hint holding 7 and a
`VARCHAR` hint holding a wire null. -/
theorem c7_parameter_decoding_witness :
    deserialize_parameters ⟨[.INT4, .VARCHAR], [.i32P 7, .nullP]⟩ [] =
      .ok [.Int32 (some 7), .Utf8 none] ∧
    (2 : Nat) = Portal.parameter_len ⟨[.INT4, .VARCHAR], [.i32P 7, .nullP]⟩ ∧
    (ScalarValue.Utf8 none).isAbsent = true := by
  have h := c7_parameter_decoding ⟨[.INT4, .VARCHAR], [.i32P 7, .nullP]⟩ []
    [.Int32 (some 7), .Utf8 none] rfl
  exact ⟨rfl, h.1.symm, h.2.2 1 (.Utf8 none) rfl rfl⟩

/-- C8: for a non-null `Timestamp(unit, tz)` cell holding `v`: with `tz`
present, a zone that fails to resolve is returned as the `ApiError`
(`BadTimezone`), and a resolved zone makes the encoder read `v` in its
native unit, interpret it as the UTC instant `v·unit` (nanoseconds),
and emit a fixed-offset datetime at that instant carrying the zone's
offset at that instant; with `tz` absent, the naive datetime in the
native unit is emitted. -/
theorem c8_timestamp_encoding (tzdb : Tzdb) (u : ArrowTimeUnit) (z : String)
    (vs : List (Option Int)) (idx : Nat) (v : Int)
    (hv : vs[idx]? = some (some v)) :
    (tzdb z = none →
      encode_value tzdb ⟨.Timestamp u (some z), tsPhys u vs⟩ idx =
        .err (badTzErr z)) ∧
    (∀ tzi, tzdb z = some tzi → chronoNsOk (v * unitNs u) = true →
      encode_value tzdb ⟨.Timestamp u (some z), tsPhys u vs⟩ idx =
        .ok [.fixedDtV (v * unitNs u) (tzi.offsetAt (v * unitNs u))]) ∧
    (chronoNsOk (v * unitNs u) = true →
      encode_value tzdb ⟨.Timestamp u none, tsPhys u vs⟩ idx =
        .ok [.naiveDtV (v * unitNs u)]) := by
  refine ⟨?_, ?_, ?_⟩
  · intro hz
    cases u <;> simp [encode_value, tsPhys, downcastTs, hz]
  · intro tzi hz hr
    cases u <;> simp only [unitNs, mul_one] at hr <;>
      simp [encode_value, tsPhys, downcastTs, hz, arrowValue, hv, tsToNaive,
        unitNs, hr, optField]
  · intro hr
    cases u <;> simp only [unitNs, mul_one] at hr <;>
      simp [encode_value, tsPhys, downcastTs, arrowValue, hv, tsToNaive,
        unitNs, hr, optField]

/-- C8 witness: the second instant of 1970 in a zone at UTC-5, and a
zone that fails to resolve. -/
theorem c8_timestamp_encoding_witness :
    encode_value (fun _ => some ⟨fun _ => -18000⟩)
        ⟨.Timestamp .Second (some "America/New_York"), .tsSecA [some 1]⟩ 0 =
      .ok [.fixedDtV 1000000000 (-18000)] ∧
    encode_value (fun _ => none)
        ⟨.Timestamp .Second (some "Not/A/Zone"), .tsSecA [some 1]⟩ 0 =
      .err (badTzErr "Not/A/Zone") := by
  have h1 := c8_timestamp_encoding (fun _ => some ⟨fun _ => -18000⟩) .Second
    "America/New_York" [some 1] 0 1 rfl
  have h2 := c8_timestamp_encoding (fun _ => none) .Second "Not/A/Zone"
    [some 1] 0 1 rfl
  exact ⟨by simpa [tsPhys, unitNs] using h1.2.1 ⟨fun _ => -18000⟩ rfl rfl,
    by simpa [tsPhys] using h2.1 rfl⟩

/-- C9: a non-null cell holding the string `s` produces the same
emitted field whether the column's physical layout is `Utf8`,
`LargeUtf8` or `Utf8View`. -/
theorem c9_string_layout_equiv (tzdb : Tzdb) (s : String) (idx : Nat)
    (vs : List (Option String)) (hv : vs[idx]? = some (some s)) :
    encode_value tzdb ⟨.Utf8, .strA vs⟩ idx = .ok [.strV s] ∧
    encode_value tzdb ⟨.LargeUtf8, .largeStrA vs⟩ idx = .ok [.strV s] ∧
    encode_value tzdb ⟨.Utf8View, .strViewA vs⟩ idx = .ok [.strV s] := by
  refine ⟨?_, ?_, ?_⟩ <;>
    simp [encode_value, get_utf8_value, get_large_utf8_value,
      get_utf8_view_value, arrowValue, hv]

/-- C9 witness: the three layouts at `"hi"`. -/
theorem c9_string_layout_equiv_witness :
    encode_value (fun _ => none) ⟨.Utf8, .strA [some "hi"]⟩ 0 =
      .ok [.strV "hi"] ∧
    encode_value (fun _ => none) ⟨.LargeUtf8, .largeStrA [some "hi"]⟩ 0 =
      .ok [.strV "hi"] ∧
    encode_value (fun _ => none) ⟨.Utf8View, .strViewA [some "hi"]⟩ 0 =
      .ok [.strV "hi"] :=
  c9_string_layout_equiv (fun _ => none) "hi" 0 [some "hi"] rfl

/-- C10 counterexample: a `FixedSizeList(Null)` column's non-null cell
does not panic — the `Null` element arm emits the typed absent value
without touching the array at all. -/
theorem c10_counterexample :
    Phys.isNull (Phys.fixedListA [some (.nullA 1)]) 0 = false ∧
    encode_value (fun _ => none)
      ⟨.FixedSizeList .Null 1, .fixedListA [some (.nullA 1)]⟩ 0 =
      .ok [.nullV] :=
  ⟨rfl, rfl⟩

/-- Helper: once `ListArray::value` panics (as it does on
`FixedSizeListArray`/`LargeListArray` columns), every element arm that
reads through a list accessor panics, for both non-plain list kinds. -/
theorem encode_list_arm_panics (tzdb : Tzdb) (e : DataType) (n : Int)
    (idx : Nat) (p : Phys)
    (he : elemUsesListArray e = true)
    (hlv : listValue p idx = .panic) :
    encode_value tzdb ⟨.FixedSizeList e n, p⟩ idx = .panic ∧
    encode_value tzdb ⟨.LargeList e, p⟩ idx = .panic := by
  cases e
  case Null => simp [elemUsesListArray] at he
  case Boolean =>
      constructor <;> simp [encode_value, get_bool_list_value, hlv]
  case Int8 =>
      constructor <;> simp [encode_value, get_i8_list_value, hlv]
  case Int16 =>
      constructor <;> simp [encode_value, get_i16_list_value, hlv]
  case Int32 =>
      constructor <;> simp [encode_value, get_i32_list_value, hlv]
  case Int64 =>
      constructor <;> simp [encode_value, get_i64_list_value, hlv]
  case UInt8 =>
      constructor <;> simp [encode_value, get_u8_list_value, hlv]
  case UInt16 =>
      constructor <;> simp [encode_value, get_u16_list_value, hlv]
  case UInt32 =>
      constructor <;> simp [encode_value, get_u32_list_value, hlv]
  case UInt64 =>
      constructor <;> simp [encode_value, get_u64_list_value, hlv]
  case Float32 =>
      constructor <;> simp [encode_value, get_f32_list_value, hlv]
  case Float64 =>
      constructor <;> simp [encode_value, get_f64_list_value, hlv]
  case Utf8 =>
      constructor <;> simp [encode_value, hlv]
  case Binary =>
      constructor <;> simp [encode_value, hlv]
  case LargeBinary =>
      constructor <;> simp [encode_value, hlv]
  case Date32 =>
      constructor <;> simp [encode_value, hlv]
  case Date64 =>
      constructor <;> simp [encode_value, hlv]
  case Time32 u =>
      cases u <;> simp [elemUsesListArray, encodableListElem] at he <;>
        constructor <;> simp [encode_value, hlv]
  case Time64 u =>
      cases u <;> simp [elemUsesListArray, encodableListElem] at he <;>
        constructor <;> simp [encode_value, hlv]
  case Timestamp u tz =>
      constructor <;> simp [encode_value, hlv]
  all_goals simp [elemUsesListArray, encodableListElem] at he

/-- C10 (amended): for every supported element type that reads through
the `ListArray` downcast (all of the list arm's element types except
`Null`), encoding any cell of a `FixedSizeList` or `LargeList` column
panics rather than returning a value or a structured error; the `Null`
element type instead emits one absent field for either list kind. -/
theorem c10_fixed_large_list_panics (tzdb : Tzdb) (e : DataType) (n : Int)
    (idx : Nat) (pf pl : Phys)
    (he : elemUsesListArray e = true)
    (hpf : PhysFor (.FixedSizeList e n) pf)
    (hpl : PhysFor (.LargeList e) pl) :
    encode_value tzdb ⟨.FixedSizeList e n, pf⟩ idx = .panic ∧
    encode_value tzdb ⟨.LargeList e, pl⟩ idx = .panic ∧
    (∀ (m : Int) (p2 : Phys) (j : Nat),
      encode_value tzdb ⟨.FixedSizeList .Null m, p2⟩ j = .ok [.nullV] ∧
      encode_value tzdb ⟨.LargeList .Null, p2⟩ j = .ok [.nullV]) := by
  cases hpf with
  | fixedList_pf _ _ vsf =>
      cases hpl with
      | largeList_pf _ vsl =>
          exact ⟨(encode_list_arm_panics tzdb e n idx (.fixedListA vsf) he
              rfl).1,
            (encode_list_arm_panics tzdb e n idx (.largeListA vsl) he rfl).2,
            fun m p2 j => ⟨by simp [encode_value], by simp [encode_value]⟩⟩

/-- C10 witness: the amended panic behaviour at `Boolean` elements and
the `Null`-element exception. -/
theorem c10_fixed_large_list_panics_witness :
    encode_value (fun _ => none)
      ⟨.FixedSizeList .Boolean 1, .fixedListA [some (.boolA [some true])]⟩
      0 = .panic ∧
    encode_value (fun _ => none)
      ⟨.LargeList .Boolean, .largeListA [some (.boolA [some true])]⟩ 0 =
      .panic ∧
    encode_value (fun _ => none)
      ⟨.FixedSizeList .Null 2, .fixedListA [some (.nullA 2)]⟩ 0 =
      .ok [.nullV] := by
  have h := c10_fixed_large_list_panics (fun _ => none) .Boolean 1 0
    (.fixedListA [some (.boolA [some true])])
    (.largeListA [some (.boolA [some true])]) rfl
    (.fixedList_pf _ _ _) (.largeList_pf _ _)
  exact ⟨h.1, h.2.1, (h.2.2 2 (.fixedListA [some (.nullA 2)]) 0).1⟩

end DfPg
